import Mathlib

/-!
# Tile Connect: the match / collapse engine of `src/App.js`

A shallow embedding of the game logic of the React component `App`:
the grid generator `createTileGrid`, the adjacency rule `checkAdjacency`, the click handler
`handleTileSelection`, the collapse-and-refill routine `updateGrid`, `startGame`,
`restartGame`, the countdown and the deferred animation callback.

Conventions of the embedding.

* A grid is a list of rows, each a list of strings; the empty marker is `""`.
  A coordinate `(x, y)` is (row index, column index), exactly as the source indexes
  `grid[x][y]`.
* JavaScript reads that can fail are explicit: indexing a missing row is a `TypeError`
  (`none`), indexing a missing cell of an existing row is `undefined` (`some none`).
* Writes are modelled inside the domain "list of lists of strings": a write outside the
  current bounds (a `TypeError` for a missing row, a silently growing row for a missing
  column) or a write of `undefined` leaves that domain and is reported as `none`.
* `Math.floor(Math.random() * 6)` is an oracle: the `n`-th call made so far returns
  `rnd n : Fin 6`; the number of calls made is threaded through as a counter.
* React state is a record; a handler returns the record after its batched setter calls.
* The timeout of the animation effect is a closure: it keeps the `grid` and `animationTiles`
  of the render that installed it. A `Session` is the state together with that render, and
  `step` runs one event (start, restart, tile selection, one elapsed second, the timeout
  firing) followed by the effects of the render it causes.
-/

namespace TileConnect

/-- A coordinate `[x, y]`: row index `x`, column index `y`. -/
abbrev Coord := Nat × Nat

/-- The grid: an array of rows of symbols, `""` marking an empty cell. -/
abbrev Grid := List (List String)

/-- The outcomes of `Math.floor(Math.random() * symbols.length)`, call by call. -/
abbrev RandomSource := Nat → Fin 6

/-- The palette of `generateTileSymbol` (line 5). -/
def symbols : List String := ["🍎", "🥭", "🫐", "🍊", "🍓", "🍐"]

/-- Line 6: `symbols[Math.floor(Math.random() * symbols.length)]`, for the `n`-th draw. -/
def generateTileSymbol (rnd : RandomSource) (n : Nat) : String :=
  symbols.getD (rnd n).val ""

/-- The component state of `App` (lines 14 to 20). -/
structure GameState where
  grid : Grid
  selectedTiles : List Coord
  currentScore : Int
  isGameOver : Bool
  timer : Int
  hasStarted : Bool
  animationTiles : List Coord

/-- The read `grid[x][y]`: `none` is the TypeError raised when row `x` is missing,
`some none` is the value `undefined` of a missing cell in an existing row. -/
def readCell (g : Grid) (x y : Nat) : Option (Option String) :=
  match g[x]? with
  | none => none
  | some row => some row[y]?

/-- The write `grid[x][y] = v` for a position inside the grid; `none` when the position is
outside (JavaScript would raise a TypeError or grow the row). -/
def setCell (g : Grid) (x y : Nat) (v : String) : Option Grid :=
  match g[x]? with
  | none => none
  | some row => if y < row.length then some (g.set x (row.set y v)) else none

/-- The test `Math.abs(p - q) === 1` on indices. -/
def absDiffIsOne (p q : Nat) : Bool :=
  decide (Int.natAbs ((p : Int) - (q : Int)) = 1)

/-- The operand `(x === 0 || grid[x-1][y] === '')` of line 47, with its short circuit. -/
def aboveIsOpen (g : Grid) (x y : Nat) : Option Bool :=
  if x = 0 then some true
  else
    match readCell g (x - 1) y with
    | none => none
    | some c => some (decide (c = some ""))

/-- Lines 45 to 48: `checkAdjacency([x1, y1], [x2, y2])`, evaluated left to right with the
short circuits of `||` and `&&`; `none` is a TypeError. -/
def checkAdjacency (g : Grid) (a b : Coord) : Option Bool :=
  if (absDiffIsOne a.1 b.1 && decide (a.2 = b.2))
      || (absDiffIsOne a.2 b.2 && decide (a.1 = b.1)) then some true
  else if a.2 = b.2 then some false
  else
    match aboveIsOpen g a.1 a.2 with
    | none => none
    | some false => some false
    | some true => aboveIsOpen g b.1 b.2

/-- The condition of line 84:
`checkAdjacency([x1, y1], [x2, y2]) && grid[x1][y1] === grid[x2][y2]`. -/
def pairMatches (g : Grid) (a b : Coord) : Option Bool :=
  match checkAdjacency g a b with
  | none => none
  | some false => some false
  | some true =>
    match readCell g a.1 a.2 with
    | none => none
    | some c1 =>
      match readCell g b.1 b.2 with
      | none => none
      | some c2 => some (decide (c1 = c2))

/-- Lines 76 to 92: `handleTileSelection(x, y)`; `none` is a TypeError raised before any
setter was called. -/
def handleTileSelection (s : GameState) (x y : Nat) : Option GameState :=
  if s.isGameOver then some s
  else
    match s.selectedTiles ++ [(x, y)] with
    | [a, b] =>
      match pairMatches s.grid a b with
      | none => none
      | some true => some { s with animationTiles := [a, b], selectedTiles := [] }
      | some false => some { s with selectedTiles := [] }
    | newSelection => some { s with selectedTiles := newSelection }

/-- The body of the inner loop of lines 58 to 65 at row `x` of column `y`; the state is the
grid and `emptySpaces`. -/
def compactStep (y x : Nat) (st : Grid × Nat) : Option (Grid × Nat) :=
  match readCell st.1 x y with
  | none => none
  | some none => if 0 < st.2 then none else some st
  | some (some c) =>
    if c = "" then some (st.1, st.2 + 1)
    else if 0 < st.2 then
      match setCell st.1 (x + st.2) y c with
      | none => none
      | some g1 =>
        match setCell g1 x y "" with
        | none => none
        | some g2 => some (g2, st.2)
    else some st

/-- The loop `for (let x = n - 1; x >= 0; x--)` of lines 58 to 65. -/
def compactLoop (y : Nat) : Nat → Grid × Nat → Option (Grid × Nat)
  | 0, st => some st
  | n + 1, st =>
    match compactStep y n st with
    | none => none
    | some st1 => compactLoop y n st1

/-- The loop of lines 66 to 68 with `k` iterations left, the next row being `x`; the state
is the grid and the number of random draws made so far. -/
def refillLoop (rnd : RandomSource) (y : Nat) : Nat → Nat → Grid × Nat → Option (Grid × Nat)
  | 0, _, st => some st
  | k + 1, x, st =>
    match setCell st.1 x y (generateTileSymbol rnd st.2) with
    | none => none
    | some g1 => refillLoop rnd y k (x + 1) (g1, st.2 + 1)

/-- The loop over columns of lines 56 to 69 with `k` columns left, the next being `y`.
The bound `updatedGrid[0].length` is read once: writes inside the grid keep every row's
length. -/
def columnLoop (rnd : RandomSource) : Nat → Nat → Grid × Nat → Option (Grid × Nat)
  | 0, _, st => some st
  | k + 1, y, st =>
    match compactLoop y st.1.length (st.1, 0) with
    | none => none
    | some (g1, emptySpaces) =>
      match refillLoop rnd y emptySpaces 0 (g1, st.2) with
      | none => none
      | some st1 => columnLoop rnd k (y + 1) st1

/-- Lines 51 to 69: the array `updatedGrid` that `updateGrid([x1, y1], [x2, y2])` builds from
the `grid` of its closure, together with the number of random draws made. -/
def updatedGrid (grid : Grid) (a b : Coord) (rnd : RandomSource) (draws : Nat) :
    Option (Grid × Nat) :=
  match setCell grid a.1 a.2 "" with
  | none => none
  | some g1 =>
    match setCell g1 b.1 b.2 "" with
    | none => none
    | some g2 =>
      match g2[0]? with
      | none => none
      | some row0 => columnLoop rnd row0.length 0 (g2, draws)

/-- Lines 50 to 74: `updateGrid(a, b)` of a render whose grid is `grid`, run against the
current state `s` (the setters of lines 71 and 73 are functional updates). -/
def updateGrid (grid : Grid) (a b : Coord) (rnd : RandomSource) (draws : Nat)
    (s : GameState) : Option (GameState × Nat) :=
  match updatedGrid grid a b rnd draws with
  | none => none
  | some (g, draws1) =>
    some ({ s with grid := g, currentScore := s.currentScore + 5, timer := s.timer + 1 },
      draws1)

/-- Lines 36 to 39: the callback of the timeout set by the effect of the render `render`,
firing when the state is `s`: `setAnimationTiles([]); updateGrid(...animationTiles)`. -/
def animationCallback (render : GameState) (rnd : RandomSource) (draws : Nat)
    (s : GameState) : Option (GameState × Nat) :=
  match render.animationTiles with
  | a :: b :: _ => updateGrid render.grid a b rnd draws { s with animationTiles := [] }
  | _ => none

/-- A coordinate lies inside the grid: its row exists and its column is within that row. -/
def InBounds (g : Grid) (a : Coord) : Prop :=
  a.1 < g.length ∧ a.2 < (g.getD a.1 []).length

instance (g : Grid) (a : Coord) : Decidable (InBounds g a) := by
  unfold InBounds; infer_instance

/-- Every row of the grid has `C` cells. -/
def Rect (g : Grid) (C : Nat) : Prop := ∀ row ∈ g, row.length = C

instance (g : Grid) (C : Nat) : Decidable (Rect g C) := by
  unfold Rect; infer_instance

/-- No cell of the grid is the empty marker. -/
def NoEmpty (g : Grid) : Prop := ∀ row ∈ g, ∀ c ∈ row, c ≠ ""

instance (g : Grid) : Decidable (NoEmpty g) := by
  unfold NoEmpty; infer_instance

/-- Column `y` of the grid, top to bottom. -/
def column (g : Grid) (y : Nat) : List String := g.map fun row => row.getD y ""

/-- Number of empty cells in column `y`. -/
def emptiesIn (g : Grid) (y : Nat) : Nat := (column g y).count ""

/-- Number of empty cells in the columns to the left of column `y`. -/
def emptiesBefore (g : Grid) : Nat → Nat
  | 0 => 0
  | y + 1 => emptiesBefore g y + emptiesIn g y

/-- Column `y` after compaction and refill, when `draws` random draws were made before the
column loop started: freshly generated symbols on top (one per empty cell, drawn after those
of the columns to the left), the non-empty cells below in their original order. -/
def collapsedColumn (rnd : RandomSource) (draws : Nat) (g : Grid) (y : Nat) : List String :=
  (List.range' (draws + emptiesBefore g y) (emptiesIn g y)).map (generateTileSymbol rnd)
    ++ (column g y).filter (fun c => decide (c ≠ ""))

/-- Column `y` of the grid once lines 53 and 54 have emptied the cells `a` and `b`. -/
def clearedColumn (g : Grid) (a b : Coord) (y : Nat) : List String :=
  let c1 := if a.2 = y then (column g y).set a.1 "" else column g y
  if b.2 = y then c1.set b.1 "" else c1

/-- Row `x` of column `y` is one of the two cleared cells `a`, `b`. -/
def isCleared (a b : Coord) (y x : Nat) : Bool :=
  decide (a = (x, y) ∨ b = (x, y))

/-- The number of cleared cells lying in column `y`. -/
def clearedCount (g : Grid) (a b : Coord) (y : Nat) : Nat :=
  ((column g y).enum.filter fun p => isCleared a b y p.1).length

/-- The number of cleared cells lying in the columns to the left of column `y`. -/
def clearedBefore (g : Grid) (a b : Coord) : Nat → Nat
  | 0 => 0
  | y + 1 => clearedBefore g a b y + clearedCount g a b y

/-- The symbols of column `y` that are not cleared, in their top-to-bottom order. -/
def survivors (g : Grid) (a b : Coord) (y : Nat) : List String :=
  ((column g y).enum.filter fun p => !isCleared a b y p.1).map Prod.snd

/-- The position is in row 0 (nothing above it) or the cell directly above it is empty. -/
def AboveOpen (g : Grid) (a : Coord) : Prop :=
  a.1 = 0 ∨ readCell g (a.1 - 1) a.2 = some (some "")

/-- Manhattan distance between two coordinates. -/
def manhattan (a b : Coord) : Nat :=
  Int.natAbs ((a.1 : Int) - (b.1 : Int)) + Int.natAbs ((a.2 : Int) - (b.2 : Int))

/-- A 5 by 5 board of palette symbols. -/
def board5 : Grid :=
  [["🍎", "🥭", "🫐", "🍊", "🍓"],
   ["🥭", "🫐", "🍊", "🍓", "🍐"],
   ["🫐", "🍊", "🍓", "🍓", "🍎"],
   ["🍊", "🍓", "🍐", "🍎", "🥭"],
   ["🍓", "🍐", "🍎", "🍓", "🫐"]]

/-- A one-row grid whose two cells are both empty. -/
def emptyPairGrid : Grid := [["", ""]]

/-- A one-column grid with an empty cell between two symbols. -/
def gapColumnGrid : Grid := [["🍎"], [""], ["🍎"]]

/-- A 2 by 2 grid with an empty top row. -/
def openTopGrid : Grid := [["", ""], ["🍎", "🥭"]]

/-- A running session on `board5` with score 0 and 10 seconds left. -/
def runningState : GameState :=
  { grid := board5, selectedTiles := [], currentScore := 0, isGameOver := false,
    timer := 10, hasStarted := true, animationTiles := [] }

/-- A session that has ended with one tile still selected and a pair still pending. -/
def overState : GameState :=
  { grid := board5, selectedTiles := [(2, 2)], currentScore := 15, isGameOver := true,
    timer := 0, hasStarted := true, animationTiles := [(0, 0), (0, 1)] }

/-- A running session on `board5` in which the tile (2,2) is selected. -/
def oneSelectedState : GameState :=
  { runningState with selectedTiles := [(2, 2)] }

/-- A running session on `board5` in which the pair (2,2), (2,3) is pending. -/
def pendingState : GameState :=
  { runningState with animationTiles := [(2, 2), (2, 3)] }

/-- The session of `pendingState` one second later, a further tile having been selected:
the state in which the timeout installed in `pendingState` fires. -/
def laterState : GameState :=
  { pendingState with timer := 9, selectedTiles := [(4, 4)] }

/-- A 3 by 2 grid that already holds two empty cells. -/
def holedGrid : Grid := [["🍎", ""], ["", "🫐"], ["🍊", "🥭"]]

/-! ### Grid generation, session handlers, timers and the event loop -/

/-- The inner `Array.from({ length: cols }, generateTileSymbol)` of line 10: `cols` cells,
each a fresh draw; returns the row and the number of draws made. -/
def createRow (rnd : RandomSource) : Nat → Nat → List String × Nat
  | 0, draws => ([], draws)
  | cols + 1, draws =>
    let rest := createRow rnd cols (draws + 1)
    (generateTileSymbol rnd draws :: rest.1, rest.2)

/-- The outer `Array.from({ length: rows }, ...)` of line 10, rows built top to bottom. -/
def createRows (rnd : RandomSource) (cols : Nat) : Nat → Nat → Grid × Nat
  | 0, draws => ([], draws)
  | rows + 1, draws =>
    let row := createRow rnd cols draws
    let rest := createRows rnd cols rows row.2
    (row.1 :: rest.1, rest.2)

/-- Lines 9 to 11: `createTileGrid(rows, cols)`, with the number of draws made. -/
def createTileGrid (rnd : RandomSource) (rows cols draws : Nat) : Grid × Nat :=
  createRows rnd cols rows draws

/-- Lines 94 to 100: `restartGame()`; selectedTiles and animationTiles are not touched. -/
def restartGame (rnd : RandomSource) (draws : Nat) (s : GameState) : GameState × Nat :=
  let fresh := createTileGrid rnd 9 6 draws
  ({ s with grid := fresh.1, currentScore := 0, timer := 60, isGameOver := false,
            hasStarted := false }, fresh.2)

/-- Lines 102 to 104: `startGame()`. -/
def startGame (s : GameState) : GameState :=
  { s with hasStarted := true }

/-- The condition of line 24 under which the one-second interval is installed. -/
def intervalRunning (s : GameState) : Bool :=
  s.hasStarted && decide (0 < s.timer) && !s.isGameOver

/-- One elapsed second: the interval callback `setTimer(prev => prev - 1)` of line 26 fires
when the interval is installed, and nothing happens otherwise. -/
def timerTick (s : GameState) : GameState :=
  if intervalRunning s then { s with timer := s.timer - 1 } else s

/-- The state change made by the effect of lines 22 to 32 when it runs:
`else if (timer === 0) setIsGameOver(true)`. -/
def timerEffect (s : GameState) : GameState :=
  if intervalRunning s then s
  else if s.timer = 0 then { s with isGameOver := true } else s

/-- Whether `handleTileSelection(x, y)` reaches `setAnimationTiles` (line 85). -/
def schedulesAnimation (s : GameState) (x y : Nat) : Bool :=
  !s.isGameOver &&
    match s.selectedTiles ++ [(x, y)] with
    | [a, b] => decide (pairMatches s.grid a b = some true)
    | _ => false

/-- The component between two events: its state and, when the timeout of lines 36 to 39 is
live, the render whose effect installed it (the callback closes over that render's `grid`
and `animationTiles`). -/
structure Session where
  state : GameState
  timeout : Option GameState

/-- The events that drive the component. `restart` and `animate` carry the number of random
draws made before them. -/
inductive Event where
  | start
  | restart (draws : Nat)
  | select (x y : Nat)
  | tick
  | animate (draws : Nat)

/-- One event, followed by the effects of the render it causes.
* `select`: tiles exist only for positions of the grid (lines 121 to 127), so the handler is
  called with in-bounds coordinates; when it calls `setAnimationTiles` the effect of lines 34
  to 43 clears the previous timeout and installs one for the new render.
* `animate`: the live timeout fires; `setAnimationTiles([])` leaves no timeout.
* `start`, `restart`, `tick`: `animationTiles` is not set, so the timeout is kept.
The effect of lines 22 to 32 runs after the events that change one of its dependencies. -/
def step (rnd : RandomSource) (e : Event) (w : Session) : Option Session :=
  match e with
  | .start => some { w with state := timerEffect (startGame w.state) }
  | .restart draws => some { w with state := timerEffect (restartGame rnd draws w.state).1 }
  | .tick => some { w with state := timerEffect (timerTick w.state) }
  | .select x y =>
    if InBounds w.state.grid (x, y) then
      match handleTileSelection w.state x y with
      | none => none
      | some s1 =>
        some { state := s1,
               timeout := if schedulesAnimation w.state x y then some s1 else w.timeout }
    else none
  | .animate draws =>
    match w.timeout with
    | none => none
    | some render =>
      match animationCallback render rnd draws w.state with
      | none => none
      | some res => some { state := timerEffect res.1, timeout := none }

/-- The component after its first render (lines 14 to 20), `draws` draws having been made
before the grid was generated. -/
def initialSession (rnd : RandomSource) (draws : Nat) : Session :=
  { state :=
      { grid := (createTileGrid rnd 9 6 draws).1, selectedTiles := [], currentScore := 0,
        isGameOver := false, timer := 60, hasStarted := false, animationTiles := [] },
    timeout := none }

/-- Running a list of events in order. -/
def runEvents (rnd : RandomSource) : List Event → Session → Option Session
  | [], w => some w
  | e :: es, w =>
    match step rnd e w with
    | none => none
    | some w1 => runEvents rnd es w1

/-- The sessions reachable from the first render by start, restart, tile selection, timer
tick and deferred-animation events. -/
inductive Reachable (rnd : RandomSource) : Session → Prop where
  | init (draws : Nat) : Reachable rnd (initialSession rnd draws)
  | next {w w1 : Session} (e : Event) (before : Reachable rnd w)
      (fired : step rnd e w = some w1) : Reachable rnd w1

/-- A grid of `R` rows of `C` cells none of which is empty. -/
def FullBoard (g : Grid) (R C : Nat) : Prop :=
  g.length = R ∧ Rect g C ∧ NoEmpty g

instance (g : Grid) (R C : Nat) : Decidable (FullBoard g R C) := by
  unfold FullBoard; infer_instance

/-- A session on `board5` about to run out of time: started, one second left. -/
def lastSecondSession : Session :=
  { state := { runningState with timer := 1 }, timeout := none }

/-- What holds of every session the event loop can reach: the grid is a full 9 by 6 board,
at most one in-bounds coordinate is selected, timer and score are not negative, and a live
timeout closes over a full 9 by 6 board and a pair of in-bounds coordinates. -/
def SessionInv (w : Session) : Prop :=
  FullBoard w.state.grid 9 6 ∧
  w.state.selectedTiles.length ≤ 1 ∧
  (∀ c ∈ w.state.selectedTiles, c.1 < 9 ∧ c.2 < 6) ∧
  0 ≤ w.state.timer ∧ 0 ≤ w.state.currentScore ∧
  ∀ r, w.timeout = some r →
    FullBoard r.grid 9 6 ∧
    ∃ a b, r.animationTiles = [a, b] ∧ InBounds r.grid a ∧ InBounds r.grid b

/-- A randomness source that cycles through the palette: draw `n` is symbol `n mod 6`, so
every row of a 6-column grid generated from a multiple of 6 reads the palette in order. -/
def cycleRnd : RandomSource := fun n => ⟨n % 6, Nat.mod_lt n (by decide)⟩

/-- A play-through: start, 59 seconds pass, the matching pair (0,0), (1,0) is selected with
one second left, and the last second passes while its animation is pending. -/
def lastSecondTrace : List Event :=
  Event.start :: (List.replicate 59 Event.tick ++
    [Event.select 0 0, Event.select 1 0, Event.tick])

/-- A play-through: start, the matching pair (0,0), (1,0) is selected, and before its
animation ends the tile (0,1) is selected. -/
def overlapTrace : List Event :=
  [Event.start, Event.select 0 0, Event.select 1 0, Event.select 0 1]

/-- The session `overlapTrace` leads to: the pair (0,0), (1,0) is pending, its timeout is
live, and the tile (0,1) is selected. -/
def overlapSession : Session :=
  { state :=
      { grid := (createTileGrid cycleRnd 9 6 0).1, selectedTiles := [(0, 1)],
        currentScore := 0, isGameOver := false, timer := 60, hasStarted := true,
        animationTiles := [(0, 0), (1, 0)] },
    timeout := some
      { grid := (createTileGrid cycleRnd 9 6 0).1, selectedTiles := [],
        currentScore := 0, isGameOver := false, timer := 60, hasStarted := true,
        animationTiles := [(0, 0), (1, 0)] } }

/-! ## Reads and the adjacency rule -/

theorem readCell_of_inBounds {g : Grid} {a : Coord} (h : InBounds g a) :
    ∃ c, readCell g a.1 a.2 = some (some c) := by
  obtain ⟨h1, h2⟩ := h
  have hr : g[a.1]? = some g[a.1] := List.getElem?_eq_getElem h1
  have hd : g.getD a.1 [] = g[a.1] := by
    simp [List.getD_eq_getElem?_getD, hr]
  rw [hd] at h2
  refine ⟨(g[a.1])[a.2], ?_⟩
  simp [readCell, hr, List.getElem?_eq_getElem h2]

theorem aboveIsOpen_isSome {g : Grid} {x : Nat} (y : Nat) (h : x < g.length) :
    ∃ r, aboveIsOpen g x y = some r := by
  unfold aboveIsOpen
  by_cases hx : x = 0
  · exact ⟨true, by simp [hx]⟩
  · have h1 : x - 1 < g.length := by omega
    simp [hx, readCell, List.getElem?_eq_getElem h1]

theorem absDiffIsOne_comm (p q : Nat) : absDiffIsOne p q = absDiffIsOne q p := by
  unfold absDiffIsOne
  congr 1
  apply propext
  constructor <;> intro h <;> omega

theorem aboveIsOpen_of_aboveOpen {g : Grid} {a : Coord} (h : AboveOpen g a) :
    aboveIsOpen g a.1 a.2 = some true := by
  unfold aboveIsOpen
  rcases h with h | h
  · simp [h]
  · by_cases hx : a.1 = 0
    · simp [hx]
    · simp [hx, h]

/-! ## Cell writes, seen column by column -/

theorem column_length (g : Grid) (y : Nat) : (column g y).length = g.length := by
  simp [column]

theorem row_length_of_rect {g : Grid} {C : Nat} (hrect : Rect g C) {x : Nat}
    (hx : x < g.length) : (g[x]).length = C :=
  hrect _ (List.getElem_mem hx)

theorem column_getElem {g : Grid} {C : Nat} (hrect : Rect g C) {x y : Nat}
    (hx : x < g.length) (hy : y < C) :
    (g[x])[y]? = some ((column g y).getD x "") := by
  have hlen : (g[x]).length = C := row_length_of_rect hrect hx
  have hy1 : y < (g[x]).length := by omega
  simp [column, List.getD_eq_getElem?_getD, List.getElem?_eq_getElem hx,
    List.getElem?_eq_getElem hy1]

theorem readCell_of_column {g : Grid} {C : Nat} (hrect : Rect g C) {x y : Nat}
    (hx : x < g.length) (hy : y < C) :
    readCell g x y = some (some ((column g y).getD x "")) := by
  unfold readCell
  rw [List.getElem?_eq_getElem hx]
  simp only
  rw [column_getElem hrect hx hy]

theorem setCell_spec {g : Grid} {C : Nat} (hrect : Rect g C) {x y : Nat}
    (hx : x < g.length) (hy : y < C) (v : String) :
    ∃ g1, setCell g x y v = some g1 ∧ g1.length = g.length ∧ Rect g1 C ∧
      column g1 y = (column g y).set x v ∧
      ∀ j, j ≠ y → column g1 j = column g j := by
  have hlen : (g[x]).length = C := row_length_of_rect hrect hx
  have hy1 : y < (g[x]).length := by omega
  refine ⟨g.set x ((g[x]).set y v), ?_, ?_, ?_, ?_, ?_⟩
  · unfold setCell
    rw [List.getElem?_eq_getElem hx]
    simp [hy1]
  · simp
  · intro row hrow
    rcases List.mem_or_eq_of_mem_set hrow with h | h
    · exact hrect row h
    · rw [h, List.length_set]
      exact hlen
  · unfold column
    rw [List.map_set]
    congr 1
    simp [List.getD_eq_getElem?_getD, List.getElem?_set, hy1]
  · intro j hj
    unfold column
    rw [List.map_set]
    have hsame : ((g[x]).set y v).getD j "" = (g[x]).getD j "" := by
      simp only [List.getD_eq_getElem?_getD, List.getElem?_set]
      rw [if_neg (fun h => hj h.symm)]
    rw [hsame]
    apply List.ext_getElem?
    intro i
    rw [List.getElem?_set]
    split
    · next hxi =>
      subst hxi
      simp [List.getElem?_eq_getElem hx, hx]
    · rfl

theorem set_last_empty (e : Nat) (c : String) (F : List String) :
    (List.replicate (e + 1) "" ++ F).set e c = List.replicate e "" ++ c :: F := by
  induction e with
  | zero => simp
  | succ n ih =>
    rw [List.replicate_succ, List.cons_append, List.set_cons_succ, ih,
      List.replicate_succ, List.cons_append]

theorem shift_down (P : List String) (c : String) (e : Nat) (he : 0 < e)
    (F : List String) :
    ((P ++ [c] ++ List.replicate e "" ++ F).set (P.length + e) c).set P.length ""
      = P ++ List.replicate e "" ++ c :: F := by
  obtain ⟨n, rfl⟩ : ∃ n, e = n + 1 := ⟨e - 1, by omega⟩
  induction P with
  | nil =>
    simp only [List.nil_append, List.length_nil, Nat.zero_add, List.singleton_append,
      List.cons_append, List.set_cons_succ, List.set_cons_zero, set_last_empty]
    rw [List.replicate_succ, List.cons_append]
  | cons p P ih =>
    simp only [List.cons_append, List.length_cons, List.set_cons_succ] at ih ⊢
    rw [show P.length + 1 + (n + 1) = (P.length + (n + 1)) + 1 by omega,
      List.set_cons_succ, List.set_cons_succ, ih]

/-! ## The compaction loop and the refill loop on one column -/

theorem compactLoop_spec {C y : Nat} (hy : y < C) (P : List String) :
    ∀ (e : Nat) (F : List String) (g : Grid), Rect g C →
      column g y = P ++ List.replicate e "" ++ F →
      ∃ g1, compactLoop y P.length (g, e) = some (g1, e + P.count "") ∧
        g1.length = g.length ∧ Rect g1 C ∧
        column g1 y
          = List.replicate (e + P.count "") "" ++ P.filter (fun c => decide (c ≠ "")) ++ F ∧
        ∀ j, j ≠ y → column g1 j = column g j := by
  induction P using List.reverseRecOn with
  | nil =>
    intro e F g hrect hcol
    exact ⟨g, by simp [compactLoop], rfl, hrect, by simpa using hcol, fun _ _ => rfl⟩
  | append_singleton P c ih =>
    intro e F g hrect hcol
    have hlen : g.length = P.length + 1 + e + F.length := by
      rw [← column_length g y, hcol]
      simp
      omega
    have hx : P.length < g.length := by omega
    have hget : (column g y)[P.length]? = some c := by
      rw [hcol, List.append_assoc, List.append_assoc,
        List.getElem?_append_right (Nat.le_refl _)]
      simp
    have hread : readCell g P.length y = some (some c) := by
      rw [readCell_of_column hrect hx hy, List.getD_eq_getElem?_getD, hget]
      rfl
    rw [List.length_append, List.length_singleton]
    unfold compactLoop
    by_cases hc : c = ""
    · subst hc
      have hstep : compactStep y P.length (g, e) = some (g, e + 1) := by
        simp [compactStep, hread]
      have hcol1 : column g y = P ++ List.replicate (e + 1) "" ++ F := by
        rw [hcol, List.replicate_succ]
        simp
      obtain ⟨g1, h1, h2, h3, h4, h5⟩ := ih (e + 1) F g hrect hcol1
      have hcount : e + List.count "" (P ++ [""]) = e + 1 + List.count "" P := by
        simp [List.count_append]
        omega
      refine ⟨g1, ?_, h2, h3, ?_, h5⟩
      · rw [hstep, hcount]
        exact h1
      · rw [hcount, h4]
        simp
    · have hcount : e + List.count "" (P ++ [c]) = e + List.count "" P := by
        simp [List.count_append, List.count_singleton, hc]
      have hfilter : (P ++ [c]).filter (fun c => decide (c ≠ ""))
          = P.filter (fun c => decide (c ≠ "")) ++ [c] := by
        simp [List.filter_append, hc]
      by_cases he : 0 < e
      · obtain ⟨g1, hs1, hl1, hr1, hc1, ho1⟩ :=
          setCell_spec hrect (show P.length + e < g.length by omega) hy c
        obtain ⟨g2, hs2, hl2, hr2, hc2, ho2⟩ :=
          setCell_spec hr1 (show P.length < g1.length by omega) hy ""
        have hstep : compactStep y P.length (g, e) = some (g2, e) := by
          simp [compactStep, hread, hc, he, hs1, hs2]
        have hcol2 : column g2 y = P ++ List.replicate e "" ++ c :: F := by
          rw [hc2, hc1, hcol, shift_down P c e he F]
        obtain ⟨g3, h1, h2, h3, h4, h5⟩ := ih e (c :: F) g2 hr2 hcol2
        refine ⟨g3, ?_, by omega, h3, ?_, ?_⟩
        · rw [hstep, hcount]
          exact h1
        · rw [hcount, h4, hfilter]
          simp
        · intro j hj
          rw [h5 j hj, ho2 j hj, ho1 j hj]
      · have he0 : e = 0 := by omega
        subst he0
        have hstep : compactStep y P.length (g, 0) = some (g, 0) := by
          simp [compactStep, hread, hc]
        have hcol1 : column g y = P ++ List.replicate 0 "" ++ c :: F := by
          rw [hcol]
          simp
        obtain ⟨g1, h1, h2, h3, h4, h5⟩ := ih 0 (c :: F) g hrect hcol1
        refine ⟨g1, ?_, h2, h3, ?_, h5⟩
        · rw [hstep, hcount]
          exact h1
        · rw [hcount, h4, hfilter]
          simp

theorem refillLoop_spec (rnd : RandomSource) {C y : Nat} (hy : y < C) (k : Nat) :
    ∀ (N S : List String) (g : Grid) (draws : Nat), Rect g C →
      column g y = N ++ List.replicate k "" ++ S →
      ∃ g1, refillLoop rnd y k N.length (g, draws) = some (g1, draws + k) ∧
        g1.length = g.length ∧ Rect g1 C ∧
        column g1 y = N ++ (List.range' draws k).map (generateTileSymbol rnd) ++ S ∧
        ∀ j, j ≠ y → column g1 j = column g j := by
  induction k with
  | zero =>
    intro N S g draws hrect hcol
    exact ⟨g, by simp [refillLoop], rfl, hrect, by simpa using hcol, fun _ _ => rfl⟩
  | succ k ih =>
    intro N S g draws hrect hcol
    have hlen : g.length = N.length + (k + 1) + S.length := by
      rw [← column_length g y, hcol]
      simp
      omega
    obtain ⟨g1, hs1, hl1, hr1, hc1, ho1⟩ :=
      setCell_spec hrect (show N.length < g.length by omega) hy
        (generateTileSymbol rnd draws)
    have hcol1 : column g1 y
        = (N ++ [generateTileSymbol rnd draws]) ++ List.replicate k "" ++ S := by
      rw [hc1, hcol, List.replicate_succ]
      simp
    obtain ⟨g2, h1, h2, h3, h4, h5⟩ :=
      ih (N ++ [generateTileSymbol rnd draws]) S g1 (draws + 1) hr1 hcol1
    rw [List.length_append, List.length_singleton] at h1
    refine ⟨g2, ?_, by omega, h3, ?_, ?_⟩
    · unfold refillLoop
      simp only [hs1]
      rw [h1]
      congr 2
      omega
    · rw [h4, List.range'_succ]
      simp
    · intro j hj
      rw [h5 j hj, ho1 j hj]

/-! ## The loop over columns -/

theorem column_pass_spec (rnd : RandomSource) {C y : Nat} (hy : y < C) (g : Grid)
    (draws : Nat) (hrect : Rect g C) :
    ∃ gc g1, compactLoop y g.length (g, 0) = some (gc, emptiesIn g y) ∧
      refillLoop rnd y (emptiesIn g y) 0 (gc, draws) = some (g1, draws + emptiesIn g y) ∧
      g1.length = g.length ∧ Rect g1 C ∧
      column g1 y = (List.range' draws (emptiesIn g y)).map (generateTileSymbol rnd)
        ++ (column g y).filter (fun c => decide (c ≠ "")) ∧
      ∀ j, j ≠ y → column g1 j = column g j := by
  obtain ⟨gc, h1, h2, h3, h4, h5⟩ :=
    compactLoop_spec hy (column g y) 0 [] g hrect (by simp)
  rw [column_length, Nat.zero_add] at h1
  rw [Nat.zero_add, List.append_nil] at h4
  obtain ⟨g1, k1, k2, k3, k4, k5⟩ :=
    refillLoop_spec rnd hy (List.count "" (column g y)) []
      ((column g y).filter (fun c => decide (c ≠ ""))) gc draws h3 (by simpa using h4)
  refine ⟨gc, g1, h1, k1, by omega, k3, by simpa using k4, ?_⟩
  intro j hj
  rw [k5 j hj, h5 j hj]

theorem columnLoop_spec (rnd : RandomSource) {C : Nat} (g0 : Grid) (draws0 : Nat)
    (k : Nat) :
    ∀ (y : Nat) (g : Grid), y + k = C → Rect g C → g.length = g0.length →
      (∀ j, y ≤ j → j < C → column g j = column g0 j) →
      (∀ j, j < y → column g j = collapsedColumn rnd draws0 g0 j) →
      ∃ g1, columnLoop rnd k y (g, draws0 + emptiesBefore g0 y)
          = some (g1, draws0 + emptiesBefore g0 C) ∧
        g1.length = g0.length ∧ Rect g1 C ∧
        ∀ j, j < C → column g1 j = collapsedColumn rnd draws0 g0 j := by
  induction k with
  | zero =>
    intro y g hyk hrect hlen _ hdone
    have hyC : y = C := by omega
    subst hyC
    exact ⟨g, by simp [columnLoop], hlen, hrect, hdone⟩
  | succ k ih =>
    intro y g hyk hrect hlen hrest hdone
    have hy : y < C := by omega
    obtain ⟨gc, g1, h1, h2, h3, h4, h5, h6⟩ :=
      column_pass_spec rnd hy g (draws0 + emptiesBefore g0 y) hrect
    have hsame : emptiesIn g y = emptiesIn g0 y := by
      unfold emptiesIn
      rw [hrest y (Nat.le_refl y) hy]
    have hnext : draws0 + emptiesBefore g0 y + emptiesIn g y
        = draws0 + emptiesBefore g0 (y + 1) := by
      rw [hsame]
      simp [emptiesBefore, Nat.add_assoc]
    obtain ⟨g2, r1, r2, r3, r4⟩ := ih (y + 1) g1 (by omega) h4 (by omega)
      (by
        intro j hj hjC
        rw [h6 j (by omega)]
        exact hrest j (by omega) hjC)
      (by
        intro j hj
        by_cases hjy : j = y
        · subst hjy
          rw [h5, hrest j (Nat.le_refl j) hy, hsame]
          rfl
        · rw [h6 j hjy]
          exact hdone j (by omega))
    refine ⟨g2, ?_, r2, r3, r4⟩
    unfold columnLoop
    simp only [h1, h2, hnext]
    exact r1

/-! ## The grid built by `updateGrid` -/

theorem inBounds_rect {g : Grid} {C : Nat} (hrect : Rect g C) {a : Coord}
    (ha : InBounds g a) : a.1 < g.length ∧ a.2 < C := by
  obtain ⟨h1, h2⟩ := ha
  have hd : g.getD a.1 [] = g[a.1] := by
    simp [List.getD_eq_getElem?_getD, List.getElem?_eq_getElem h1]
  rw [hd, row_length_of_rect hrect h1] at h2
  exact ⟨h1, h2⟩

theorem updatedGrid_spec (rnd : RandomSource) {C : Nat} (g : Grid) (a b : Coord)
    (draws : Nat) (hrect : Rect g C) (ha : InBounds g a) (hb : InBounds g b) :
    ∃ gc g1, gc.length = g.length ∧ Rect gc C ∧
      (∀ j, column gc j = clearedColumn g a b j) ∧
      updatedGrid g a b rnd draws = some (g1, draws + emptiesBefore gc C) ∧
      g1.length = g.length ∧ Rect g1 C ∧
      ∀ j, j < C → column g1 j = collapsedColumn rnd draws gc j := by
  obtain ⟨ha1, ha2⟩ := inBounds_rect hrect ha
  obtain ⟨hb1, hb2⟩ := inBounds_rect hrect hb
  obtain ⟨ga, hsa, hla, hra, hca, hoa⟩ := setCell_spec hrect ha1 ha2 ""
  obtain ⟨gc, hsb, hlb, hrb, hcb, hob⟩ :=
    setCell_spec hra (show b.1 < ga.length by omega) hb2 ""
  have hpos : 0 < gc.length := by omega
  have hrow0 : (gc[0]).length = C := row_length_of_rect hrb hpos
  have hcol : ∀ j, column gc j = clearedColumn g a b j := by
    intro j
    unfold clearedColumn
    by_cases hbj : b.2 = j
    · subst hbj
      by_cases haj : a.2 = b.2
      · simp only [haj, if_true]
        rw [hcb, ← haj, hca]
      · simp only [haj, if_false, if_true]
        rw [hcb, hoa _ (fun h => haj h.symm)]
    · rw [hob j (fun h => hbj h.symm)]
      by_cases haj : a.2 = j
      · subst haj
        simp only [hbj, if_false, if_true]
        rw [hca]
      · simp only [hbj, haj, if_false]
        rw [hoa j (fun h => haj h.symm)]
  obtain ⟨g1, h1, h2, h3, h4⟩ :=
    columnLoop_spec rnd gc draws C 0 gc (by omega) hrb rfl (fun _ _ _ => rfl)
      (fun j hj => absurd hj (Nat.not_lt_zero j))
  refine ⟨gc, g1, by omega, hrb, hcol, ?_, by omega, h3, h4⟩
  unfold updatedGrid
  simp only [hsa, hsb, List.getElem?_eq_getElem hpos, hrow0]
  simpa [emptiesBefore] using h1

theorem generateTileSymbol_mem (rnd : RandomSource) (n : Nat) :
    generateTileSymbol rnd n ∈ symbols := by
  have h : ∀ d : Fin 6, symbols.getD d.val "" ∈ symbols := by decide
  exact h (rnd n)

theorem generateTileSymbol_ne_empty (rnd : RandomSource) (n : Nat) :
    generateTileSymbol rnd n ≠ "" := by
  have h : ∀ d : Fin 6, symbols.getD d.val "" ≠ "" := by decide
  exact h (rnd n)

theorem collapsedColumn_ne_empty (rnd : RandomSource) (draws : Nat) (g : Grid) (y : Nat) :
    ∀ c ∈ collapsedColumn rnd draws g y, c ≠ "" := by
  intro c hc
  unfold collapsedColumn at hc
  rcases List.mem_append.mp hc with h | h
  · obtain ⟨n, _, rfl⟩ := List.mem_map.mp h
    exact generateTileSymbol_ne_empty rnd n
  · simpa using (List.mem_filter.mp h).2

theorem noEmpty_of_columns {g : Grid} {C : Nat} (hrect : Rect g C)
    (h : ∀ j, j < C → ∀ c ∈ column g j, c ≠ "") : NoEmpty g := by
  intro row hrow c hc
  obtain ⟨j, hj, rfl⟩ := List.getElem_of_mem hc
  have hjC : j < C := by
    rw [← hrect row hrow]
    exact hj
  apply h j hjC
  unfold column
  apply List.mem_map.mpr
  exact ⟨row, hrow, by simp [List.getD_eq_getElem?_getD, List.getElem?_eq_getElem hj]⟩

theorem column_ne_empty {g : Grid} {C : Nat} (hrect : Rect g C) (hfull : NoEmpty g)
    {y : Nat} (hy : y < C) : ∀ c ∈ column g y, c ≠ "" := by
  intro c hc
  unfold column at hc
  obtain ⟨row, hrow, rfl⟩ := List.mem_map.mp hc
  have hyr : y < row.length := by
    rw [hrect row hrow]
    exact hy
  apply hfull row hrow
  simp [List.getD_eq_getElem?_getD, List.getElem?_eq_getElem hyr]

/-! ## Cleared cells and surviving symbols of a full column -/

theorem getElem?_set_empty (L : List String) (x i : Nat) :
    (L.set x "")[i]? = (L[i]?).map fun c => if x = i then "" else c := by
  rw [List.getElem?_set]
  by_cases h : x = i
  · subst h
    by_cases hx : x < L.length
    · simp [hx, List.getElem?_eq_getElem hx]
    · simp [hx, List.getElem?_eq_none (Nat.le_of_not_lt hx)]
  · simp only [h, if_false]
    cases L[i]? <;> simp

theorem clearedColumn_eq_map (g : Grid) (a b : Coord) (y : Nat) :
    clearedColumn g a b y
      = (column g y).enum.map fun p => if isCleared a b y p.1 then "" else p.2 := by
  obtain ⟨a1, a2⟩ := a
  obtain ⟨b1, b2⟩ := b
  apply List.ext_getElem?
  intro i
  rw [List.getElem?_map, List.getElem?_enum]
  unfold clearedColumn isCleared
  simp only []
  by_cases h1 : a2 = y <;> by_cases h2 : b2 = y <;>
    simp only [h1, h2, if_true, if_false, getElem?_set_empty] <;>
    cases (column g y)[i]? <;>
    simp <;>
    by_cases h3 : a1 = i <;> by_cases h4 : b1 = i <;> simp [h1, h2, h3, h4]

theorem filter_count_cleared (P : Nat → Bool) (E : List (Nat × String))
    (hE : ∀ p ∈ E, p.2 ≠ "") :
    (E.map fun p => if P p.1 then "" else p.2).filter (fun c => decide (c ≠ ""))
        = (E.filter fun p => !P p.1).map Prod.snd ∧
    (E.map fun p => if P p.1 then "" else p.2).count ""
        = (E.filter fun p => P p.1).length := by
  induction E with
  | nil => simp
  | cons p E ih =>
    have hp : p.2 ≠ "" := hE p (List.mem_cons_self _ _)
    obtain ⟨ih1, ih2⟩ := ih (fun q hq => hE q (List.mem_cons_of_mem _ hq))
    rw [List.map_cons]
    cases hP : P p.1
    · simp only [Bool.false_eq_true, if_false]
      constructor
      · rw [List.filter_cons_of_pos (by simpa using hp),
          List.filter_cons_of_pos (by simp [hP]), List.map_cons, ih1]
      · rw [List.count_cons_of_ne (fun h => hp h.symm), ih2,
          List.filter_cons_of_neg (by simp [hP])]
    · simp only [if_true]
      constructor
      · rw [List.filter_cons_of_neg (by simp),
          List.filter_cons_of_neg (by simp [hP]), ih1]
      · rw [List.count_cons_self, ih2, List.filter_cons_of_pos (by simp [hP]),
          List.length_cons]

theorem cleared_facts {g : Grid} {C : Nat} (hrect : Rect g C) (hfull : NoEmpty g)
    (a b : Coord) {y : Nat} (hy : y < C) (gc : Grid)
    (hcol : ∀ j, column gc j = clearedColumn g a b j) :
    emptiesIn gc y = clearedCount g a b y ∧
    (column gc y).filter (fun c => decide (c ≠ "")) = survivors g a b y := by
  have hE : ∀ p ∈ (column g y).enum, p.2 ≠ "" := fun p hp =>
    column_ne_empty hrect hfull hy _ (List.snd_mem_of_mem_enum hp)
  obtain ⟨h1, h2⟩ := filter_count_cleared (isCleared a b y) (column g y).enum hE
  unfold emptiesIn clearedCount survivors
  rw [hcol y, clearedColumn_eq_map]
  exact ⟨h2, h1⟩

theorem emptiesBefore_cleared {g : Grid} {C : Nat} (hrect : Rect g C) (hfull : NoEmpty g)
    (a b : Coord) (gc : Grid) (hcol : ∀ j, column gc j = clearedColumn g a b j) :
    ∀ y, y ≤ C → emptiesBefore gc y = clearedBefore g a b y := by
  intro y
  induction y with
  | zero => intro _; rfl
  | succ y ih =>
    intro hy
    unfold emptiesBefore clearedBefore
    rw [ih (by omega), (cleared_facts hrect hfull a b (show y < C by omega) gc hcol).1]

/-! ## The match condition and the adjacency rule (C3 to C6) -/

theorem pairMatches_iff {g : Grid} {a b : Coord} (ha : InBounds g a) (hb : InBounds g b) :
    pairMatches g a b = some true ↔
      (checkAdjacency g a b = some true ∧ readCell g a.1 a.2 = readCell g b.1 b.2) := by
  obtain ⟨ca, hca⟩ := readCell_of_inBounds ha
  obtain ⟨cb, hcb⟩ := readCell_of_inBounds hb
  unfold pairMatches
  rw [hca, hcb]
  rcases hadj : checkAdjacency g a b with _ | _ | _ <;> simp

/-- C3, counterexample. On the one-row grid `[["", ""]]` the cells (0,0) and (0,1) are in
bounds, adjacent and both empty: the condition of line 84 holds although the symbol at `a` is
the empty marker, so the condition is not equivalent to "connectable, equal and non-empty". -/
theorem C3_counterexample :
    InBounds emptyPairGrid (0, 0) ∧ InBounds emptyPairGrid (0, 1) ∧
    ¬ (pairMatches emptyPairGrid (0, 0) (0, 1) = some true ↔
        (checkAdjacency emptyPairGrid (0, 0) (0, 1) = some true ∧
         readCell emptyPairGrid 0 0 = readCell emptyPairGrid 0 1 ∧
         readCell emptyPairGrid 0 0 ≠ some (some ""))) := by
  decide

/-- C3, amended. For every grid and every two in-bounds coordinates, the condition under which
`handleTileSelection` schedules the pair holds exactly when `checkAdjacency(a, b)` is true and
`grid[a]` equals `grid[b]` (no emptiness test is made). Hence it agrees with "connectable,
equal and non-empty" whenever the cell at `a` is not the empty marker, and the two differ
exactly when the pair is connectable and both cells hold the empty marker. -/
theorem C3_pairMatches_iff (g : Grid) (a b : Coord)
    (ha : InBounds g a) (hb : InBounds g b) :
    (pairMatches g a b = some true ↔
      (checkAdjacency g a b = some true ∧ readCell g a.1 a.2 = readCell g b.1 b.2)) ∧
    (readCell g a.1 a.2 ≠ some (some "") →
      (pairMatches g a b = some true ↔
        (checkAdjacency g a b = some true ∧ readCell g a.1 a.2 = readCell g b.1 b.2 ∧
         readCell g a.1 a.2 ≠ some (some "")))) ∧
    (¬ (pairMatches g a b = some true ↔
        (checkAdjacency g a b = some true ∧ readCell g a.1 a.2 = readCell g b.1 b.2 ∧
         readCell g a.1 a.2 ≠ some (some ""))) ↔
      (checkAdjacency g a b = some true ∧ readCell g a.1 a.2 = some (some "") ∧
       readCell g b.1 b.2 = some (some ""))) := by
  have hiff := pairMatches_iff ha hb
  refine ⟨hiff, fun hne => ?_, ?_⟩
  · rw [hiff]
    constructor
    · rintro ⟨h1, h2⟩
      exact ⟨h1, h2, hne⟩
    · rintro ⟨h1, h2, _⟩
      exact ⟨h1, h2⟩
  · rw [hiff]
    constructor
    · intro hdiff
      by_cases hadj : checkAdjacency g a b = some true
      · by_cases hemp : readCell g a.1 a.2 = some (some "")
        · by_cases heq : readCell g a.1 a.2 = readCell g b.1 b.2
          · exact ⟨hadj, hemp, by rw [← heq]; exact hemp⟩
          · exact absurd ⟨fun h => absurd h.2 heq, fun h => absurd h.2.1 heq⟩ hdiff
        · exact absurd ⟨fun h => ⟨h.1, h.2, hemp⟩, fun h => ⟨h.1, h.2.1⟩⟩ hdiff
      · exact absurd ⟨fun h => absurd h.1 hadj, fun h => absurd h.1 hadj⟩ hdiff
    · rintro ⟨hadj, hea, heb⟩ hsame
      exact (hsame.mp ⟨hadj, by rw [hea, heb]⟩).2.2 hea

theorem C3_pairMatches_iff_witness :
    InBounds board5 (2, 2) ∧ InBounds board5 (2, 3) ∧
    ((pairMatches board5 (2, 2) (2, 3) = some true ↔
      (checkAdjacency board5 (2, 2) (2, 3) = some true ∧
        readCell board5 2 2 = readCell board5 2 3)) ∧
    (readCell board5 2 2 ≠ some (some "") →
      (pairMatches board5 (2, 2) (2, 3) = some true ↔
        (checkAdjacency board5 (2, 2) (2, 3) = some true ∧
         readCell board5 2 2 = readCell board5 2 3 ∧
         readCell board5 2 2 ≠ some (some "")))) ∧
    (¬ (pairMatches board5 (2, 2) (2, 3) = some true ↔
        (checkAdjacency board5 (2, 2) (2, 3) = some true ∧
         readCell board5 2 2 = readCell board5 2 3 ∧
         readCell board5 2 2 ≠ some (some ""))) ↔
      (checkAdjacency board5 (2, 2) (2, 3) = some true ∧
       readCell board5 2 2 = some (some "") ∧ readCell board5 2 3 = some (some "")))) :=
  ⟨by decide, by decide, C3_pairMatches_iff board5 (2, 2) (2, 3) (by decide) (by decide)⟩

/-- C4. `checkAdjacency` is symmetric: on a rectangular grid, for two distinct in-bounds
coordinates, `checkAdjacency(a, b)` and `checkAdjacency(b, a)` both return, with the same
value. -/
theorem C4_checkAdjacency_symm (g : Grid) (C : Nat) (a b : Coord) (_hrect : Rect g C)
    (ha : InBounds g a) (hb : InBounds g b) (_hne : a ≠ b) :
    checkAdjacency g a b = checkAdjacency g b a ∧
    ∃ r, checkAdjacency g a b = some r := by
  obtain ⟨ra, hra⟩ := aboveIsOpen_isSome a.2 ha.1
  obtain ⟨rb, hrb⟩ := aboveIsOpen_isSome b.2 hb.1
  unfold checkAdjacency
  rw [absDiffIsOne_comm b.1 a.1, absDiffIsOne_comm b.2 a.2, hra, hrb]
  by_cases h1 : a.1 = b.1 <;> by_cases h2 : a.2 = b.2 <;>
    cases absDiffIsOne a.1 b.1 <;> cases absDiffIsOne a.2 b.2 <;>
    cases ra <;> cases rb <;> simp [h1, h2, eq_comm]

theorem C4_checkAdjacency_symm_witness :
    Rect board5 5 ∧ InBounds board5 (0, 1) ∧ InBounds board5 (0, 4) ∧
    ((0, 1) : Coord) ≠ (0, 4) ∧
    (checkAdjacency board5 (0, 1) (0, 4) = checkAdjacency board5 (0, 4) (0, 1) ∧
      ∃ r, checkAdjacency board5 (0, 1) (0, 4) = some r) :=
  ⟨by decide, by decide, by decide, by decide,
    C4_checkAdjacency_symm board5 5 (0, 1) (0, 4) (by decide) (by decide) (by decide)
      (by decide)⟩

/-- C5. Whatever the grid holds, two in-bounds coordinates at Manhattan distance exactly 1
are connectable, and two coordinates of one column whose row indices differ by 2 or more are
not. -/
theorem C5_adjacent_and_far (g : Grid) :
    (∀ a b : Coord, InBounds g a → InBounds g b → manhattan a b = 1 →
      checkAdjacency g a b = some true) ∧
    (∀ a b : Coord, a.2 = b.2 → 2 ≤ Int.natAbs ((a.1 : Int) - (b.1 : Int)) →
      checkAdjacency g a b = some false) := by
  constructor
  · intro a b _ _ hd
    unfold manhattan at hd
    have h : (Int.natAbs ((a.1 : Int) - (b.1 : Int)) = 1 ∧ a.2 = b.2) ∨
        (Int.natAbs ((a.2 : Int) - (b.2 : Int)) = 1 ∧ a.1 = b.1) := by omega
    unfold checkAdjacency absDiffIsOne
    rcases h with ⟨h1, h2⟩ | ⟨h1, h2⟩
    · simp [h1, h2]
    · simp [h1, h2]
  · intro a b hcol hfar
    have h1 : Int.natAbs ((a.1 : Int) - (b.1 : Int)) ≠ 1 := by omega
    have h2 : a.1 ≠ b.1 := by
      intro h
      rw [h] at hfar
      simp at hfar
    unfold checkAdjacency absDiffIsOne
    simp [h1, h2, hcol]

theorem C5_adjacent_and_far_witness :
    (InBounds board5 (2, 3) ∧ InBounds board5 (2, 4) ∧ manhattan (2, 3) (2, 4) = 1 ∧
      checkAdjacency board5 (2, 3) (2, 4) = some true) ∧
    (2 ≤ Int.natAbs (((2 : Nat) : Int) - ((4 : Nat) : Int)) ∧
      checkAdjacency board5 (2, 3) (4, 3) = some false) :=
  ⟨⟨by decide, by decide, by decide,
      (C5_adjacent_and_far board5).1 (2, 3) (2, 4) (by decide) (by decide) (by decide)⟩,
    ⟨by decide, (C5_adjacent_and_far board5).2 (2, 3) (4, 3) rfl (by decide)⟩⟩

/-- C6, counterexample. In the one-column grid `[["A"], [""], ["A"]]` the cells (0,0) and
(2,0) are in bounds and in different rows, (0,0) has nothing above it and the cell above (2,0)
is empty, yet `checkAdjacency` answers false: the rule of line 47 asks for different column
indices (`y1 !== y2`). -/
theorem C6_counterexample :
    InBounds gapColumnGrid (0, 0) ∧ InBounds gapColumnGrid (2, 0) ∧
    ((0, 0) : Coord).1 ≠ ((2, 0) : Coord).1 ∧
    AboveOpen gapColumnGrid (0, 0) ∧ AboveOpen gapColumnGrid (2, 0) ∧
    checkAdjacency gapColumnGrid (0, 0) (2, 0) = some false := by
  refine ⟨by decide, by decide, by decide, Or.inl rfl, Or.inr (by decide), by decide⟩

/-- C6, amended. For every grid and every two in-bounds coordinates that lie in different
columns (`y1 !== y2`) and for each of which the position directly above is outside the grid
(row 0) or holds the empty marker, `checkAdjacency(a, b)` is true. -/
theorem C6_exposed_pair_connectable (g : Grid) (a b : Coord)
    (_ha : InBounds g a) (_hb : InBounds g b) (hcol : a.2 ≠ b.2)
    (hopenA : AboveOpen g a) (hopenB : AboveOpen g b) :
    checkAdjacency g a b = some true := by
  unfold checkAdjacency
  rw [aboveIsOpen_of_aboveOpen hopenA, aboveIsOpen_of_aboveOpen hopenB]
  simp [hcol]

theorem C6_exposed_pair_connectable_witness :
    InBounds openTopGrid (1, 0) ∧ InBounds openTopGrid (0, 1) ∧
    ((1, 0) : Coord).2 ≠ ((0, 1) : Coord).2 ∧
    AboveOpen openTopGrid (1, 0) ∧ AboveOpen openTopGrid (0, 1) ∧
    checkAdjacency openTopGrid (1, 0) (0, 1) = some true :=
  ⟨by decide, by decide, by decide, Or.inr (by decide), Or.inl rfl,
    C6_exposed_pair_connectable openTopGrid (1, 0) (0, 1) (by decide) (by decide)
      (by decide) (Or.inr (by decide)) (Or.inl rfl)⟩

/-! ## Tile selection and the deferred animation callback (C7 to C10) -/

/-- C7. Once the game is over `handleTileSelection(x, y)` returns at line 77: the state, and
so grid, currentScore, timer, selectedTiles and animationTiles, is unchanged. -/
theorem C7_selection_noop_when_over (s : GameState) (x y : Nat)
    (hover : s.isGameOver = true) :
    ∃ s1, handleTileSelection s x y = some s1 ∧ s1 = s ∧
      s1.grid = s.grid ∧ s1.currentScore = s.currentScore ∧ s1.timer = s.timer ∧
      s1.selectedTiles = s.selectedTiles ∧ s1.animationTiles = s.animationTiles := by
  refine ⟨s, ?_, rfl, rfl, rfl, rfl, rfl, rfl⟩
  simp [handleTileSelection, hover]

theorem C7_selection_noop_when_over_witness :
    overState.isGameOver = true ∧
    ∃ s1, handleTileSelection overState 2 3 = some s1 ∧ s1 = overState ∧
      s1.grid = overState.grid ∧ s1.currentScore = overState.currentScore ∧
      s1.timer = overState.timer ∧ s1.selectedTiles = overState.selectedTiles ∧
      s1.animationTiles = overState.animationTiles :=
  ⟨rfl, C7_selection_noop_when_over overState 2 3 rfl⟩

/-- C8. In a session that is not over and holds exactly one selected coordinate `a`,
selecting `b` with `(a, b)` a valid match (connectable, symbols equal and non-empty) sets
animationTiles to `[a, b]` and selectedTiles to empty and leaves grid, currentScore and timer
as they were. -/
theorem C8_match_only_marks_pending (s : GameState) (a b : Coord)
    (hrun : s.isGameOver = false) (hsel : s.selectedTiles = [a])
    (hadj : checkAdjacency s.grid a b = some true)
    (hsym : ∃ c, c ≠ "" ∧ readCell s.grid a.1 a.2 = some (some c) ∧
      readCell s.grid b.1 b.2 = some (some c)) :
    ∃ s1, handleTileSelection s b.1 b.2 = some s1 ∧
      s1.animationTiles = [a, b] ∧ s1.selectedTiles = [] ∧
      s1.grid = s.grid ∧ s1.currentScore = s.currentScore ∧ s1.timer = s.timer := by
  obtain ⟨c, _, hca, hcb⟩ := hsym
  have hpm : pairMatches s.grid a b = some true := by
    simp [pairMatches, hadj, hca, hcb]
  refine ⟨{ s with animationTiles := [a, b], selectedTiles := [] }, ?_, rfl, rfl, rfl, rfl, rfl⟩
  simp [handleTileSelection, hrun, hsel, hpm]

theorem C8_match_only_marks_pending_witness :
    oneSelectedState.isGameOver = false ∧ oneSelectedState.selectedTiles = [(2, 2)] ∧
    checkAdjacency oneSelectedState.grid (2, 2) (2, 3) = some true ∧
    (∃ c, c ≠ "" ∧ readCell oneSelectedState.grid 2 2 = some (some c) ∧
      readCell oneSelectedState.grid 2 3 = some (some c)) ∧
    ∃ s1, handleTileSelection oneSelectedState 2 3 = some s1 ∧
      s1.animationTiles = [(2, 2), (2, 3)] ∧ s1.selectedTiles = [] ∧
      s1.grid = oneSelectedState.grid ∧ s1.currentScore = oneSelectedState.currentScore ∧
      s1.timer = oneSelectedState.timer :=
  ⟨rfl, rfl, by decide, ⟨"🍓", by decide, by decide, by decide⟩,
    C8_match_only_marks_pending oneSelectedState (2, 2) (2, 3) rfl rfl (by decide)
      ⟨"🍓", by decide, by decide, by decide⟩⟩

/-- C10. In a session that is not over and holds exactly one selected coordinate `a`,
selecting `b` whose symbol equals that at `a` but for which `checkAdjacency(a, b)` is false
leaves grid, currentScore, timer and animationTiles as they were and empties
selectedTiles. -/
theorem C10_failed_pair_clears_selection (s : GameState) (a b : Coord)
    (hrun : s.isGameOver = false) (hsel : s.selectedTiles = [a])
    (_hsym : readCell s.grid a.1 a.2 = readCell s.grid b.1 b.2)
    (hadj : checkAdjacency s.grid a b = some false) :
    ∃ s1, handleTileSelection s b.1 b.2 = some s1 ∧
      s1.selectedTiles = [] ∧ s1.animationTiles = s.animationTiles ∧
      s1.grid = s.grid ∧ s1.currentScore = s.currentScore ∧ s1.timer = s.timer := by
  have hpm : pairMatches s.grid a b = some false := by
    simp [pairMatches, hadj]
  refine ⟨{ s with selectedTiles := [] }, ?_, rfl, rfl, rfl, rfl, rfl⟩
  simp [handleTileSelection, hrun, hsel, hpm]

theorem C10_failed_pair_clears_selection_witness :
    oneSelectedState.isGameOver = false ∧ oneSelectedState.selectedTiles = [(2, 2)] ∧
    readCell oneSelectedState.grid 2 2 = readCell oneSelectedState.grid 4 3 ∧
    checkAdjacency oneSelectedState.grid (2, 2) (4, 3) = some false ∧
    ∃ s1, handleTileSelection oneSelectedState 4 3 = some s1 ∧
      s1.selectedTiles = [] ∧ s1.animationTiles = oneSelectedState.animationTiles ∧
      s1.grid = oneSelectedState.grid ∧ s1.currentScore = oneSelectedState.currentScore ∧
      s1.timer = oneSelectedState.timer :=
  ⟨rfl, rfl, by decide, by decide,
    C10_failed_pair_clears_selection oneSelectedState (2, 2) (4, 3) rfl rfl (by decide)
      (by decide)⟩

/-! ## Collapse and refill (C1, C2, C9) -/

/-- C1. For every rectangular grid with at least one row, whose cells may already be empty,
and every two in-bounds coordinates `a` and `b`, `updateGrid(a, b)` builds a grid of the same
dimensions that contains no empty cell (every draw of `generateTileSymbol` is a palette
symbol). -/
theorem C1_updatedGrid_noEmpty (g : Grid) (C : Nat) (a b : Coord) (rnd : RandomSource)
    (draws : Nat) (_hrows : 0 < g.length) (hrect : Rect g C)
    (ha : InBounds g a) (hb : InBounds g b) :
    ∃ g1 draws1, updatedGrid g a b rnd draws = some (g1, draws1) ∧
      g1.length = g.length ∧ Rect g1 C ∧ NoEmpty g1 := by
  obtain ⟨gc, g1, _, _, _, h1, h2, h3, h4⟩ := updatedGrid_spec rnd g a b draws hrect ha hb
  refine ⟨g1, _, h1, h2, h3, noEmpty_of_columns h3 ?_⟩
  intro j hj c hc
  rw [h4 j hj] at hc
  exact collapsedColumn_ne_empty rnd draws gc j c hc

theorem C1_updatedGrid_noEmpty_witness :
    0 < holedGrid.length ∧ Rect holedGrid 2 ∧
    InBounds holedGrid (0, 0) ∧ InBounds holedGrid (2, 1) ∧
    ∃ g1 draws1, updatedGrid holedGrid (0, 0) (2, 1) (fun _ => 3) 0 = some (g1, draws1) ∧
      g1.length = holedGrid.length ∧ Rect g1 2 ∧ NoEmpty g1 :=
  ⟨by decide, by decide, by decide, by decide,
    C1_updatedGrid_noEmpty holedGrid 2 (0, 0) (2, 1) (fun _ => 3) 0 (by decide)
      (by decide) (by decide) (by decide)⟩

/-- C2. For every rectangular grid with no empty cells and every two in-bounds coordinates
`a` and `b`, `updateGrid(a, b)` builds a grid of the same dimensions in which, for each
column `y` with `k` cleared cells: below the top `k` cells stand exactly the column's
non-cleared symbols in their original top-to-bottom order (`R - k` of them), the top `k`
cells are the symbols generated for this column (the draws that follow those of the columns
to its left), and a column containing neither `a` nor `b` is unchanged. -/
theorem C2_columns_after_collapse (g : Grid) (C : Nat) (a b : Coord) (rnd : RandomSource)
    (draws : Nat) (hrect : Rect g C) (hfull : NoEmpty g)
    (ha : InBounds g a) (hb : InBounds g b) :
    ∃ g1 draws1, updatedGrid g a b rnd draws = some (g1, draws1) ∧
      g1.length = g.length ∧ Rect g1 C ∧
      ∀ y, y < C →
        (column g1 y).drop (clearedCount g a b y) = survivors g a b y ∧
        (survivors g a b y).length = g.length - clearedCount g a b y ∧
        (column g1 y).take (clearedCount g a b y)
          = (List.range' (draws + clearedBefore g a b y) (clearedCount g a b y)).map
              (generateTileSymbol rnd) ∧
        (a.2 ≠ y → b.2 ≠ y → column g1 y = column g y) := by
  obtain ⟨gc, g1, _, _, hcol, h1, h2, h3, h4⟩ :=
    updatedGrid_spec rnd g a b draws hrect ha hb
  refine ⟨g1, _, h1, h2, h3, ?_⟩
  intro y hy
  obtain ⟨hk, hs⟩ := cleared_facts hrect hfull a b hy gc hcol
  have hoff := emptiesBefore_cleared hrect hfull a b gc hcol y (by omega)
  have hcy : column g1 y
      = (List.range' (draws + clearedBefore g a b y) (clearedCount g a b y)).map
          (generateTileSymbol rnd) ++ survivors g a b y := by
    rw [h4 y hy]
    unfold collapsedColumn
    rw [hk, hs, hoff]
  have hnews : ((List.range' (draws + clearedBefore g a b y) (clearedCount g a b y)).map
      (generateTileSymbol rnd)).length = clearedCount g a b y := by
    simp
  have hlen : (column g1 y).length = g.length := by
    rw [column_length, h2]
  refine ⟨?_, ?_, ?_, ?_⟩
  · rw [hcy]
    exact List.drop_left' hnews
  · rw [hcy, List.length_append, hnews] at hlen
    omega
  · rw [hcy]
    exact List.take_left' hnews
  · intro hay hby
    have hsame : clearedColumn g a b y = column g y := by
      unfold clearedColumn
      simp [hay, hby]
    have hne := column_ne_empty hrect hfull hy
    rw [h4 y hy]
    unfold collapsedColumn emptiesIn
    rw [hcol y, hsame, List.count_eq_zero.mpr (fun h => hne "" h rfl)]
    simp only [List.range'_zero, List.map_nil, List.nil_append]
    apply List.filter_eq_self.mpr
    intro c hc
    simpa using hne c hc

theorem C2_columns_after_collapse_witness :
    Rect board5 5 ∧ NoEmpty board5 ∧ InBounds board5 (2, 2) ∧ InBounds board5 (2, 3) ∧
    ∃ g1 draws1, updatedGrid board5 (2, 2) (2, 3) (fun _ => 1) 0 = some (g1, draws1) ∧
      g1.length = board5.length ∧ Rect g1 5 ∧
      ∀ y, y < 5 →
        (column g1 y).drop (clearedCount board5 (2, 2) (2, 3) y)
          = survivors board5 (2, 2) (2, 3) y ∧
        (survivors board5 (2, 2) (2, 3) y).length
          = board5.length - clearedCount board5 (2, 2) (2, 3) y ∧
        (column g1 y).take (clearedCount board5 (2, 2) (2, 3) y)
          = (List.range' (0 + clearedBefore board5 (2, 2) (2, 3) y)
              (clearedCount board5 (2, 2) (2, 3) y)).map (generateTileSymbol fun _ => 1) ∧
        (((2, 2) : Coord).2 ≠ y → ((2, 3) : Coord).2 ≠ y → column g1 y = column board5 y) :=
  ⟨by decide, by decide, by decide, by decide,
    C2_columns_after_collapse board5 5 (2, 2) (2, 3) (fun _ => 1) 0 (by decide)
      (by decide) (by decide) (by decide)⟩

theorem animationCallback_spec (render s : GameState) (rnd : RandomSource) (draws : Nat)
    (a b : Coord) (rest : List Coord) (C : Nat)
    (hanim : render.animationTiles = a :: b :: rest)
    (hrect : Rect render.grid C) (ha : InBounds render.grid a)
    (hb : InBounds render.grid b) :
    ∃ g1 draws1, updatedGrid render.grid a b rnd draws = some (g1, draws1) ∧
      animationCallback render rnd draws s
        = some ({ s with animationTiles := [], grid := g1,
                         currentScore := s.currentScore + 5, timer := s.timer + 1 },
               draws1) := by
  obtain ⟨_, g1, _, _, _, h1, _⟩ := updatedGrid_spec rnd render.grid a b draws hrect ha hb
  refine ⟨g1, _, h1, ?_⟩
  simp [animationCallback, hanim, updateGrid, h1]

/-- C9. For every state whose animationTiles is a pair `[a, b]` of in-bounds coordinates of
its (rectangular) grid, the deferred animation callback installed in that state (`render`),
whatever the state `s` in which it later fires, yields a state with currentScore increased by
exactly 5, timer increased by exactly 1, animationTiles empty and grid equal to the grid
`updateGrid(a, b)` builds from the grid of the state that installed it; the other state
variables keep the values they have when it fires. When the grid has not been replaced in
between, that grid is the collapse-and-refill of the grid of the firing state. -/
theorem C9_apply_pending_match (render s : GameState) (rnd : RandomSource) (draws : Nat)
    (a b : Coord) (C : Nat) (hanim : render.animationTiles = [a, b])
    (hrect : Rect render.grid C) (ha : InBounds render.grid a)
    (hb : InBounds render.grid b) :
    ∃ g1 draws1 s1, updatedGrid render.grid a b rnd draws = some (g1, draws1) ∧
      animationCallback render rnd draws s = some (s1, draws1) ∧
      s1.currentScore = s.currentScore + 5 ∧ s1.timer = s.timer + 1 ∧
      s1.animationTiles = [] ∧ s1.grid = g1 ∧
      s1.selectedTiles = s.selectedTiles ∧ s1.isGameOver = s.isGameOver ∧
      s1.hasStarted = s.hasStarted ∧
      (render.grid = s.grid → updatedGrid s.grid a b rnd draws = some (g1, draws1)) := by
  obtain ⟨g1, draws1, h1, h2⟩ :=
    animationCallback_spec render s rnd draws a b [] C hanim hrect ha hb
  exact ⟨g1, draws1, _, h1, h2, rfl, rfl, rfl, rfl, rfl, rfl, rfl,
    fun hsame => by rw [← hsame]; exact h1⟩

theorem C9_apply_pending_match_witness :
    pendingState.animationTiles = [(2, 2), (2, 3)] ∧ Rect pendingState.grid 5 ∧
    InBounds pendingState.grid (2, 2) ∧ InBounds pendingState.grid (2, 3) ∧
    (pendingState.currentScore = 0 ∧ pendingState.timer = 10 ∧
      ∃ g1 draws1 s1,
        updatedGrid pendingState.grid (2, 2) (2, 3) (fun _ => 1) 0 = some (g1, draws1) ∧
        animationCallback pendingState (fun _ => 1) 0 pendingState = some (s1, draws1) ∧
        s1.currentScore = pendingState.currentScore + 5 ∧
        s1.timer = pendingState.timer + 1 ∧
        s1.animationTiles = [] ∧ s1.grid = g1 ∧
        s1.selectedTiles = pendingState.selectedTiles ∧
        s1.isGameOver = pendingState.isGameOver ∧
        s1.hasStarted = pendingState.hasStarted ∧
        (pendingState.grid = pendingState.grid →
          updatedGrid pendingState.grid (2, 2) (2, 3) (fun _ => 1) 0
            = some (g1, draws1))) ∧
    (laterState.currentScore = 0 ∧ laterState.timer = 9 ∧
      laterState.selectedTiles = [(4, 4)] ∧
      ∃ g1 draws1 s1,
        updatedGrid pendingState.grid (2, 2) (2, 3) (fun _ => 1) 0 = some (g1, draws1) ∧
        animationCallback pendingState (fun _ => 1) 0 laterState = some (s1, draws1) ∧
        s1.currentScore = laterState.currentScore + 5 ∧
        s1.timer = laterState.timer + 1 ∧
        s1.animationTiles = [] ∧ s1.grid = g1 ∧
        s1.selectedTiles = laterState.selectedTiles ∧
        s1.isGameOver = laterState.isGameOver ∧
        s1.hasStarted = laterState.hasStarted ∧
        (pendingState.grid = laterState.grid →
          updatedGrid laterState.grid (2, 2) (2, 3) (fun _ => 1) 0
            = some (g1, draws1))) :=
  ⟨rfl, by decide, by decide, by decide,
    ⟨rfl, rfl,
      C9_apply_pending_match pendingState pendingState (fun _ => 1) 0 (2, 2) (2, 3) 5 rfl
        (by decide) (by decide) (by decide)⟩,
    ⟨rfl, rfl, rfl,
      C9_apply_pending_match pendingState laterState (fun _ => 1) 0 (2, 2) (2, 3) 5 rfl
        (by decide) (by decide) (by decide)⟩⟩

/-! ## Grid generation and restart (C14, C15) -/

theorem createRow_spec (rnd : RandomSource) (cols : Nat) :
    ∀ draws, (createRow rnd cols draws).1.length = cols ∧
      (createRow rnd cols draws).2 = draws + cols ∧
      ∀ c ∈ (createRow rnd cols draws).1, c ∈ symbols := by
  induction cols with
  | zero => intro draws; simp [createRow]
  | succ n ih =>
    intro draws
    obtain ⟨h1, h2, h3⟩ := ih (draws + 1)
    refine ⟨by simp [createRow, h1], by simp [createRow, h2]; omega, ?_⟩
    intro c hc
    simp only [createRow, List.mem_cons] at hc
    rcases hc with hc | hc
    · rw [hc]
      exact generateTileSymbol_mem rnd draws
    · exact h3 c hc

theorem createRows_spec (rnd : RandomSource) (cols rows : Nat) :
    ∀ draws, (createRows rnd cols rows draws).1.length = rows ∧
      (createRows rnd cols rows draws).2 = draws + rows * cols ∧
      ∀ row ∈ (createRows rnd cols rows draws).1,
        row.length = cols ∧ ∀ c ∈ row, c ∈ symbols := by
  induction rows with
  | zero => intro draws; simp [createRows]
  | succ n ih =>
    intro draws
    obtain ⟨r1, r2, r3⟩ := createRow_spec rnd cols draws
    obtain ⟨h1, h2, h3⟩ := ih (createRow rnd cols draws).2
    refine ⟨by simp [createRows, h1], ?_, ?_⟩
    · simp only [createRows]
      rw [h2, r2, Nat.succ_mul]
      omega
    · intro row hrow
      simp only [createRows, List.mem_cons] at hrow
      rcases hrow with hrow | hrow
      · rw [hrow]
        exact ⟨r1, r3⟩
      · exact h3 row hrow

theorem symbols_ne_empty : ∀ c ∈ symbols, c ≠ "" := by decide

theorem createTileGrid_fullBoard (rnd : RandomSource) (rows cols draws : Nat) :
    FullBoard (createTileGrid rnd rows cols draws).1 rows cols := by
  obtain ⟨h1, _, h3⟩ := createRows_spec rnd cols rows draws
  refine ⟨h1, fun row hrow => (h3 row hrow).1, ?_⟩
  intro row hrow c hc
  exact symbols_ne_empty c ((h3 row hrow).2 c hc)

/-- C15. For all positive `rows` and `cols` and every outcome of the randomness source,
`createTileGrid(rows, cols)` returns a grid of exactly `rows` rows, each of exactly `cols`
cells, and every cell is non-empty and one of the six palette symbols. -/
theorem C15_createTileGrid_palette (rnd : RandomSource) (rows cols draws : Nat)
    (_hrows : 0 < rows) (_hcols : 0 < cols) :
    (createTileGrid rnd rows cols draws).1.length = rows ∧
    (∀ row ∈ (createTileGrid rnd rows cols draws).1,
      row.length = cols ∧ ∀ c ∈ row, c ≠ "" ∧ c ∈ symbols) ∧
    symbols.length = 6 := by
  obtain ⟨h1, _, h3⟩ := createRows_spec rnd cols rows draws
  refine ⟨h1, ?_, rfl⟩
  intro row hrow
  refine ⟨(h3 row hrow).1, fun c hc => ?_⟩
  exact ⟨symbols_ne_empty c ((h3 row hrow).2 c hc), (h3 row hrow).2 c hc⟩

theorem C15_createTileGrid_palette_witness :
    0 < 9 ∧ 0 < 6 ∧
    ((createTileGrid (fun _ => 2) 9 6 0).1.length = 9 ∧
    (∀ row ∈ (createTileGrid (fun _ => 2) 9 6 0).1,
      row.length = 6 ∧ ∀ c ∈ row, c ≠ "" ∧ c ∈ symbols) ∧
    symbols.length = 6) :=
  ⟨by decide, by decide,
    C15_createTileGrid_palette (fun _ => 2) 9 6 0 (by decide) (by decide)⟩

/-- C14. From every prior state `restartGame` yields currentScore 0, timer 60, hasStarted
false, isGameOver false and a freshly generated grid of 9 rows by 6 columns of palette
symbols; a second `restartGame` gives the same score, timer and session flags as the
first. -/
theorem C14_restart_resets (rnd : RandomSource) (draws draws2 : Nat) (s : GameState) :
    (restartGame rnd draws s).1.currentScore = 0 ∧
    (restartGame rnd draws s).1.timer = 60 ∧
    (restartGame rnd draws s).1.hasStarted = false ∧
    (restartGame rnd draws s).1.isGameOver = false ∧
    (restartGame rnd draws s).1.grid = (createTileGrid rnd 9 6 draws).1 ∧
    FullBoard (restartGame rnd draws s).1.grid 9 6 ∧
    (restartGame rnd draws2 (restartGame rnd draws s).1).1.currentScore
      = (restartGame rnd draws s).1.currentScore ∧
    (restartGame rnd draws2 (restartGame rnd draws s).1).1.timer
      = (restartGame rnd draws s).1.timer ∧
    (restartGame rnd draws2 (restartGame rnd draws s).1).1.hasStarted
      = (restartGame rnd draws s).1.hasStarted ∧
    (restartGame rnd draws2 (restartGame rnd draws s).1).1.isGameOver
      = (restartGame rnd draws s).1.isGameOver :=
  ⟨rfl, rfl, rfl, rfl, rfl, createTileGrid_fullBoard rnd 9 6 draws, rfl, rfl, rfl, rfl⟩

/-! ## The countdown (C17) -/

theorem timerEffect_timer (s : GameState) : (timerEffect s).timer = s.timer := by
  unfold timerEffect
  split
  · rfl
  · split <;> rfl

theorem timerEffect_fields (s : GameState) :
    (timerEffect s).grid = s.grid ∧ (timerEffect s).selectedTiles = s.selectedTiles ∧
    (timerEffect s).currentScore = s.currentScore ∧
    (timerEffect s).animationTiles = s.animationTiles ∧
    (timerEffect s).hasStarted = s.hasStarted := by
  unfold timerEffect
  split
  · exact ⟨rfl, rfl, rfl, rfl, rfl⟩
  · split <;> exact ⟨rfl, rfl, rfl, rfl, rfl⟩

/-- C17. The countdown step (one elapsed second, then the timer effect) decrements timer by
exactly 1 when the session is Running (hasStarted, not game over, timer > 0), leaves timer
unchanged when the session is NotStarted or Over, and when timer reaches 0 while Running
sets isGameOver to true. -/
theorem C17_countdown_step (rnd : RandomSource) (w : Session) :
    ∃ w1, step rnd Event.tick w = some w1 ∧
      (w.state.hasStarted = true → w.state.isGameOver = false → 0 < w.state.timer →
        w1.state.timer = w.state.timer - 1) ∧
      (w.state.hasStarted = false ∨ w.state.isGameOver = true →
        w1.state.timer = w.state.timer) ∧
      (w.state.hasStarted = true → w.state.isGameOver = false → w.state.timer = 1 →
        w1.state.timer = 0 ∧ w1.state.isGameOver = true) := by
  refine ⟨_, rfl, ?_, ?_, ?_⟩
  · intro h1 h2 h3
    show (timerEffect (timerTick w.state)).timer = _
    rw [timerEffect_timer]
    simp [timerTick, intervalRunning, h1, h2, h3]
  · intro h
    show (timerEffect (timerTick w.state)).timer = _
    rw [timerEffect_timer]
    rcases h with h | h <;> simp [timerTick, intervalRunning, h]
  · intro h1 h2 h3
    show (timerEffect (timerTick w.state)).timer = 0 ∧
      (timerEffect (timerTick w.state)).isGameOver = true
    have ht : timerTick w.state = { w.state with timer := 0 } := by
      simp [timerTick, intervalRunning, h1, h2, h3]
    rw [ht]
    simp [timerEffect, intervalRunning]

theorem C17_countdown_step_witness :
    lastSecondSession.state.hasStarted = true ∧
    lastSecondSession.state.isGameOver = false ∧ lastSecondSession.state.timer = 1 ∧
    ∃ w1, step (fun _ => 0) Event.tick lastSecondSession = some w1 ∧
      w1.state.timer = 0 ∧ w1.state.isGameOver = true :=
  ⟨rfl, rfl, rfl,
    (C17_countdown_step (fun _ => 0) lastSecondSession).elim fun w1 h =>
      ⟨w1, h.1, h.2.2.2 rfl rfl rfl⟩⟩

/-! ## Adjacency on a full grid (C19) -/

theorem aboveIsOpen_full {g : Grid} (hfull : NoEmpty g) {x : Nat} (y : Nat)
    (hx : x < g.length) : aboveIsOpen g x y = some (decide (x = 0)) := by
  unfold aboveIsOpen
  by_cases h0 : x = 0
  · simp [h0]
  · have h1 : x - 1 < g.length := by omega
    have hne : (g[x - 1])[y]? ≠ some "" := by
      intro h
      have hmem : "" ∈ g[x - 1] := List.mem_iff_getElem?.mpr ⟨y, h⟩
      exact hfull _ (List.getElem_mem h1) "" hmem rfl
    simp [h0, readCell, List.getElem?_eq_getElem h1, hne]

/-- C19. On a grid with no empty cells, for every two in-bounds coordinates,
`checkAdjacency(a, b)` returns, and it is true exactly when `a` and `b` are at Manhattan
distance 1 or both lie in row 0 in different columns. -/
theorem C19_adjacency_on_full_grid (g : Grid) (a b : Coord) (hfull : NoEmpty g)
    (ha : InBounds g a) (hb : InBounds g b) :
    (∃ r, checkAdjacency g a b = some r) ∧
    (checkAdjacency g a b = some true ↔
      (manhattan a b = 1 ∨ (a.1 = 0 ∧ b.1 = 0 ∧ a.2 ≠ b.2))) := by
  have hm : manhattan a b = 1 ↔
      ((Int.natAbs ((a.1 : Int) - (b.1 : Int)) = 1 ∧ a.2 = b.2) ∨
       (Int.natAbs ((a.2 : Int) - (b.2 : Int)) = 1 ∧ a.1 = b.1)) := by
    unfold manhattan
    omega
  rw [hm]
  unfold checkAdjacency absDiffIsOne
  rw [aboveIsOpen_full hfull a.2 ha.1, aboveIsOpen_full hfull b.2 hb.1]
  by_cases c1 : Int.natAbs ((a.1 : Int) - (b.1 : Int)) = 1 ∧ a.2 = b.2
  · simp [c1.1, c1.2]
  · by_cases c2 : Int.natAbs ((a.2 : Int) - (b.2 : Int)) = 1 ∧ a.1 = b.1
    · simp [c2.1, c2.2]
    · have hcond : ((decide (Int.natAbs ((a.1 : Int) - (b.1 : Int)) = 1) && decide (a.2 = b.2))
          || (decide (Int.natAbs ((a.2 : Int) - (b.2 : Int)) = 1) && decide (a.1 = b.1)))
          = false := by
        simpa [not_and] using And.intro (not_and.mp c1) (not_and.mp c2)
      rw [hcond]
      by_cases h2 : a.2 = b.2
      · simp [h2, c1, c2]
        omega
      · by_cases h0 : a.1 = 0 <;> by_cases h3 : b.1 = 0 <;>
          (simp [h2, h0, h3, c1, c2]; all_goals omega)

theorem C19_adjacency_on_full_grid_witness :
    NoEmpty board5 ∧ InBounds board5 (0, 1) ∧ InBounds board5 (0, 4) ∧
    ((∃ r, checkAdjacency board5 (0, 1) (0, 4) = some r) ∧
    (checkAdjacency board5 (0, 1) (0, 4) = some true ↔
      (manhattan (0, 1) (0, 4) = 1 ∨
        (((0, 1) : Coord).1 = 0 ∧ ((0, 4) : Coord).1 = 0 ∧
          ((0, 1) : Coord).2 ≠ ((0, 4) : Coord).2)))) :=
  ⟨by decide, by decide, by decide,
    C19_adjacency_on_full_grid board5 (0, 1) (0, 4) (by decide) (by decide) (by decide)⟩

/-! ## The invariant of the event loop -/

theorem inBounds_iff_of_fullBoard {g : Grid} {R C : Nat} (h : FullBoard g R C) (c : Coord) :
    InBounds g c ↔ c.1 < R ∧ c.2 < C := by
  obtain ⟨hlen, hrect, _⟩ := h
  constructor
  · intro hc
    have h1 := inBounds_rect hrect hc
    exact ⟨by omega, h1.2⟩
  · rintro ⟨h1, h2⟩
    have hx : c.1 < g.length := by omega
    have hd : g.getD c.1 [] = g[c.1] := by
      simp [List.getD_eq_getElem?_getD, List.getElem?_eq_getElem hx]
    refine ⟨hx, ?_⟩
    rw [hd, row_length_of_rect hrect hx]
    exact h2

theorem updatedGrid_fullBoard (rnd : RandomSource) {R C : Nat} (g : Grid) (a b : Coord)
    (draws : Nat) (hg : FullBoard g R C) (ha : InBounds g a) (hb : InBounds g b) :
    ∃ g1 draws1, updatedGrid g a b rnd draws = some (g1, draws1) ∧ FullBoard g1 R C := by
  obtain ⟨hlen, hrect, _⟩ := hg
  obtain ⟨gc, g1, _, _, _, h1, h2, h3, h4⟩ := updatedGrid_spec rnd g a b draws hrect ha hb
  refine ⟨g1, _, h1, by omega, h3, noEmpty_of_columns h3 ?_⟩
  intro j hj c hc
  rw [h4 j hj] at hc
  exact collapsedColumn_ne_empty rnd draws gc j c hc

theorem checkAdjacency_isSome {g : Grid} {a b : Coord} (ha : InBounds g a)
    (hb : InBounds g b) : ∃ r, checkAdjacency g a b = some r := by
  obtain ⟨ra, hra⟩ := aboveIsOpen_isSome a.2 ha.1
  obtain ⟨rb, hrb⟩ := aboveIsOpen_isSome b.2 hb.1
  unfold checkAdjacency
  rw [hra, hrb]
  split
  · exact ⟨_, rfl⟩
  · split
    · exact ⟨_, rfl⟩
    · cases ra <;> exact ⟨_, rfl⟩

theorem pairMatches_isSome {g : Grid} {a b : Coord} (ha : InBounds g a)
    (hb : InBounds g b) : ∃ m, pairMatches g a b = some m := by
  obtain ⟨r, hr⟩ := checkAdjacency_isSome ha hb
  obtain ⟨ca, hca⟩ := readCell_of_inBounds ha
  obtain ⟨cb, hcb⟩ := readCell_of_inBounds hb
  unfold pairMatches
  rw [hr, hca, hcb]
  cases r <;> exact ⟨_, rfl⟩

theorem inv_after_effect (s1 : GameState) (t : Option GameState)
    (hg : FullBoard s1.grid 9 6) (hlen : s1.selectedTiles.length ≤ 1)
    (hsel : ∀ c ∈ s1.selectedTiles, c.1 < 9 ∧ c.2 < 6)
    (htimer : 0 ≤ s1.timer) (hscore : 0 ≤ s1.currentScore)
    (hto : ∀ r, t = some r → FullBoard r.grid 9 6 ∧
      ∃ a b, r.animationTiles = [a, b] ∧ InBounds r.grid a ∧ InBounds r.grid b) :
    SessionInv { state := timerEffect s1, timeout := t } := by
  obtain ⟨f1, f2, f3, _, _⟩ := timerEffect_fields s1
  have f4 := timerEffect_timer s1
  unfold SessionInv
  simp only [f1, f2, f3, f4]
  exact ⟨hg, hlen, hsel, htimer, hscore, hto⟩

theorem initial_inv (rnd : RandomSource) (draws : Nat) :
    SessionInv (initialSession rnd draws) := by
  refine ⟨createTileGrid_fullBoard rnd 9 6 draws, by simp [initialSession], ?_,
    by simp [initialSession], by simp [initialSession], ?_⟩
  · intro c hc
    simp [initialSession] at hc
  · intro r hr
    simp [initialSession] at hr

theorem select_outcome (s : GameState) (x y : Nat)
    (hg : FullBoard s.grid 9 6) (hlen : s.selectedTiles.length ≤ 1)
    (hsel : ∀ c ∈ s.selectedTiles, c.1 < 9 ∧ c.2 < 6) (hxy : x < 9 ∧ y < 6) :
    (handleTileSelection s x y = some s ∧ schedulesAnimation s x y = false ∧
      s.isGameOver = true) ∨
    (handleTileSelection s x y = some { s with selectedTiles := [(x, y)] } ∧
      schedulesAnimation s x y = false ∧ s.isGameOver = false ∧ s.selectedTiles = []) ∨
    (∃ a, s.selectedTiles = [a] ∧ s.isGameOver = false ∧ a.1 < 9 ∧ a.2 < 6 ∧
      ((handleTileSelection s x y
          = some { s with animationTiles := [a, (x, y)], selectedTiles := [] } ∧
        schedulesAnimation s x y = true ∧ pairMatches s.grid a (x, y) = some true) ∨
       (handleTileSelection s x y = some { s with selectedTiles := [] } ∧
        schedulesAnimation s x y = false ∧ pairMatches s.grid a (x, y) = some false))) := by
  by_cases hover : s.isGameOver = true
  · left
    exact ⟨by simp [handleTileSelection, hover], by simp [schedulesAnimation, hover], hover⟩
  · have hrun : s.isGameOver = false := by simpa using hover
    right
    cases hs : s.selectedTiles with
    | nil =>
      left
      exact ⟨by simp [handleTileSelection, hrun, hs], by simp [schedulesAnimation, hrun, hs],
        hrun, rfl⟩
    | cons a rest =>
      right
      have hrest : rest = [] := by
        rw [hs] at hlen
        simp at hlen
        exact hlen
      subst hrest
      have ha : a.1 < 9 ∧ a.2 < 6 := hsel a (by rw [hs]; exact List.mem_cons_self _ _)
      have hia : InBounds s.grid a := (inBounds_iff_of_fullBoard hg a).mpr ha
      have hib : InBounds s.grid (x, y) := (inBounds_iff_of_fullBoard hg (x, y)).mpr hxy
      obtain ⟨m, hm⟩ := pairMatches_isSome hia hib
      refine ⟨a, rfl, hrun, ha.1, ha.2, ?_⟩
      cases m
      · right
        exact ⟨by simp [handleTileSelection, hrun, hs, hm],
          by simp [schedulesAnimation, hrun, hs, hm], hm⟩
      · left
        exact ⟨by simp [handleTileSelection, hrun, hs, hm],
          by simp [schedulesAnimation, hrun, hs, hm], hm⟩

theorem step_preserves_inv (rnd : RandomSource) (e : Event) (w w1 : Session)
    (hinv : SessionInv w) (hstep : step rnd e w = some w1) : SessionInv w1 := by
  obtain ⟨hg, hlen, hsel, htimer, hscore, hto⟩ := hinv
  cases e with
  | start =>
    simp only [step, Option.some.injEq] at hstep
    subst hstep
    exact inv_after_effect (startGame w.state) w.timeout hg hlen hsel htimer hscore hto
  | restart draws =>
    simp only [step, Option.some.injEq] at hstep
    subst hstep
    exact inv_after_effect (restartGame rnd draws w.state).1 w.timeout
      (createTileGrid_fullBoard rnd 9 6 draws) hlen hsel (by simp [restartGame])
      (by simp [restartGame]) hto
  | tick =>
    simp only [step, Option.some.injEq] at hstep
    subst hstep
    have hfields : (timerTick w.state).grid = w.state.grid ∧
        (timerTick w.state).selectedTiles = w.state.selectedTiles ∧
        (timerTick w.state).currentScore = w.state.currentScore ∧
        0 ≤ (timerTick w.state).timer := by
      unfold timerTick
      split
      · next hrunning =>
        simp only [intervalRunning, Bool.and_eq_true, decide_eq_true_eq] at hrunning
        refine ⟨rfl, rfl, rfl, ?_⟩
        show 0 ≤ w.state.timer - 1
        omega
      · exact ⟨rfl, rfl, rfl, htimer⟩
    obtain ⟨k1, k2, k3, k4⟩ := hfields
    exact inv_after_effect (timerTick w.state) w.timeout (by rw [k1]; exact hg)
      (by rw [k2]; exact hlen) (by rw [k2]; exact hsel) k4 (by rw [k3]; exact hscore) hto
  | select x y =>
    simp only [step] at hstep
    split at hstep
    · next hin =>
      have hxy : x < 9 ∧ y < 6 := (inBounds_iff_of_fullBoard hg (x, y)).mp hin
      rcases select_outcome w.state x y hg hlen hsel hxy with
        ⟨h1, h2, _⟩ | ⟨h1, h2, _, _⟩ | ⟨a, _, _, ha1, ha2, ⟨h1, h2, _⟩ | ⟨h1, h2, _⟩⟩
      · rw [h1, h2] at hstep
        simp only [Option.some.injEq, Bool.false_eq_true, if_false] at hstep
        subst hstep
        exact ⟨hg, hlen, hsel, htimer, hscore, hto⟩
      · rw [h1, h2] at hstep
        simp only [Option.some.injEq, Bool.false_eq_true, if_false] at hstep
        subst hstep
        refine ⟨hg, by simp, ?_, htimer, hscore, hto⟩
        intro c hc
        simp only [List.mem_singleton] at hc
        rw [hc]
        exact hxy
      · rw [h1, h2] at hstep
        simp only [Option.some.injEq, if_true] at hstep
        subst hstep
        refine ⟨hg, by simp, by simp, htimer, hscore, ?_⟩
        intro r hr
        simp only [Option.some.injEq] at hr
        subst hr
        exact ⟨hg, a, (x, y), rfl, (inBounds_iff_of_fullBoard hg a).mpr ⟨ha1, ha2⟩, hin⟩
      · rw [h1, h2] at hstep
        simp only [Option.some.injEq, Bool.false_eq_true, if_false] at hstep
        subst hstep
        exact ⟨hg, by simp, by simp, htimer, hscore, hto⟩
    · exact absurd hstep (by simp)
  | animate draws =>
    simp only [step] at hstep
    cases hr : w.timeout with
    | none =>
      rw [hr] at hstep
      exact absurd hstep (by simp)
    | some render =>
      rw [hr] at hstep
      obtain ⟨hrg, a, b, hab, hia, hib⟩ := hto render hr
      obtain ⟨g1, d1, hu, hfull⟩ := updatedGrid_fullBoard rnd render.grid a b draws hrg hia hib
      obtain ⟨g2, d2, hu2, hcb⟩ :=
        animationCallback_spec render w.state rnd draws a b [] 6 hab hrg.2.1 hia hib
      rw [hu] at hu2
      simp only [Option.some.injEq, Prod.mk.injEq] at hu2
      obtain ⟨hg12, _⟩ := hu2
      subst hg12
      simp only [hcb, Option.some.injEq] at hstep
      subst hstep
      exact inv_after_effect _ none hfull hlen hsel (by show 0 ≤ w.state.timer + 1; omega)
        (by show 0 ≤ w.state.currentScore + 5; omega) (fun r hr => by simp at hr)

theorem reachable_inv (rnd : RandomSource) (w : Session) (h : Reachable rnd w) :
    SessionInv w := by
  induction h with
  | init draws => exact initial_inv rnd draws
  | next e _ fired ih => exact step_preserves_inv rnd e _ _ ih fired

theorem reachable_runEvents (rnd : RandomSource) (es : List Event) :
    ∀ w w1, Reachable rnd w → runEvents rnd es w = some w1 → Reachable rnd w1 := by
  induction es with
  | nil =>
    intro w w1 hw hrun
    simp only [runEvents, Option.some.injEq] at hrun
    rw [← hrun]
    exact hw
  | cons e es ih =>
    intro w w1 hw hrun
    simp only [runEvents] at hrun
    cases hstep : step rnd e w with
    | none =>
      rw [hstep] at hrun
      exact absurd hrun (by simp)
    | some w2 =>
      rw [hstep] at hrun
      exact ih w2 w1 (Reachable.next e hw hstep) hrun

/-! ## Invariants of reachable sessions (C11, C16, C18) -/

/-- C11. In every session reachable by start, restart, tile selection, timer tick and
deferred-animation events selectedTiles has at most 2 entries; `handleTileSelection` on an
empty selection (not game over) yields a selection of exactly one entry, and on a one-entry
selection yields an empty selection whether or not the pair matched. -/
theorem C11_selection_buffer (rnd : RandomSource) :
    (∀ w, Reachable rnd w → w.state.selectedTiles.length ≤ 2) ∧
    (∀ (s : GameState) (x y : Nat), s.isGameOver = false → s.selectedTiles = [] →
      ∃ s1, handleTileSelection s x y = some s1 ∧ s1.selectedTiles = [(x, y)] ∧
        s1.selectedTiles.length = 1) ∧
    (∀ (s : GameState) (a : Coord) (x y : Nat), s.isGameOver = false →
      s.selectedTiles = [a] → InBounds s.grid a → InBounds s.grid (x, y) →
      ∃ s1, handleTileSelection s x y = some s1 ∧ s1.selectedTiles = []) := by
  refine ⟨?_, ?_, ?_⟩
  · intro w hw
    have h := (reachable_inv rnd w hw).2.1
    omega
  · intro s x y hrun hsel
    exact ⟨{ s with selectedTiles := [(x, y)] },
      by simp [handleTileSelection, hrun, hsel], rfl, rfl⟩
  · intro s a x y hrun hsel ha hb
    obtain ⟨m, hm⟩ := pairMatches_isSome ha hb
    cases m
    · exact ⟨{ s with selectedTiles := [] },
        by simp [handleTileSelection, hrun, hsel, hm], rfl⟩
    · exact ⟨{ s with animationTiles := [a, (x, y)], selectedTiles := [] },
        by simp [handleTileSelection, hrun, hsel, hm], rfl⟩

theorem C11_selection_buffer_witness :
    (Reachable cycleRnd (initialSession cycleRnd 0) ∧
      (initialSession cycleRnd 0).state.selectedTiles.length ≤ 2) ∧
    (runningState.isGameOver = false ∧ runningState.selectedTiles = [] ∧
      ∃ s1, handleTileSelection runningState 2 2 = some s1 ∧
        s1.selectedTiles = [(2, 2)] ∧ s1.selectedTiles.length = 1) ∧
    (oneSelectedState.isGameOver = false ∧ oneSelectedState.selectedTiles = [(2, 2)] ∧
      InBounds oneSelectedState.grid (2, 2) ∧ InBounds oneSelectedState.grid (4, 3) ∧
      ∃ s1, handleTileSelection oneSelectedState 4 3 = some s1 ∧ s1.selectedTiles = []) :=
  ⟨⟨Reachable.init 0, (C11_selection_buffer cycleRnd).1 _ (Reachable.init 0)⟩,
    ⟨rfl, rfl, (C11_selection_buffer cycleRnd).2.1 runningState 2 2 rfl rfl⟩,
    ⟨rfl, rfl, by decide, by decide,
      (C11_selection_buffer cycleRnd).2.2 oneSelectedState (2, 2) 4 3 rfl rfl (by decide)
        (by decide)⟩⟩

/-- C16. In every session reachable from the first render (score 0, timer 60, not started)
by start, restart, tile selection, timer tick and deferred-animation events, timer and
currentScore are not negative. -/
theorem C16_timer_score_nonneg (rnd : RandomSource) (w : Session)
    (hw : Reachable rnd w) : 0 ≤ w.state.timer ∧ 0 ≤ w.state.currentScore :=
  ⟨(reachable_inv rnd w hw).2.2.2.1, (reachable_inv rnd w hw).2.2.2.2.1⟩

theorem C16_timer_score_nonneg_witness :
    ∃ w, runEvents cycleRnd [Event.start, Event.tick] (initialSession cycleRnd 0) = some w ∧
      Reachable cycleRnd w ∧ (0 ≤ w.state.timer ∧ 0 ≤ w.state.currentScore) :=
  ⟨_, rfl,
    reachable_runEvents cycleRnd [Event.start, Event.tick] _ _ (Reachable.init 0) rfl,
    C16_timer_score_nonneg cycleRnd _
      (reachable_runEvents cycleRnd [Event.start, Event.tick] _ _ (Reachable.init 0) rfl)⟩

/-- C18. In every session reachable from the first render by start, restart, timer tick,
deferred-animation events and tile selections with in-bounds coordinates, the grid has
exactly 9 rows of exactly 6 cells and no cell is empty. -/
theorem C18_reachable_grid_full (rnd : RandomSource) (w : Session)
    (hw : Reachable rnd w) :
    w.state.grid.length = 9 ∧ (∀ row ∈ w.state.grid, row.length = 6) ∧
    ∀ row ∈ w.state.grid, ∀ c ∈ row, c ≠ "" :=
  (reachable_inv rnd w hw).1

theorem C18_reachable_grid_full_witness :
    ∃ w, runEvents cycleRnd
        [Event.start, Event.select 0 0, Event.select 1 0, Event.animate 54]
        (initialSession cycleRnd 0) = some w ∧
      Reachable cycleRnd w ∧
      (w.state.grid.length = 9 ∧ (∀ row ∈ w.state.grid, row.length = 6) ∧
        ∀ row ∈ w.state.grid, ∀ c ∈ row, c ≠ "") :=
  ⟨_, rfl,
    reachable_runEvents cycleRnd
      [Event.start, Event.select 0 0, Event.select 1 0, Event.animate 54] _ _
      (Reachable.init 0) rfl,
    C18_reachable_grid_full cycleRnd _
      (reachable_runEvents cycleRnd
        [Event.start, Event.select 0 0, Event.select 1 0, Event.animate 54] _ _
        (Reachable.init 0) rfl)⟩

/-! ## Writes of `updateGrid` stay inside the grid (C20) -/

theorem setCell_some_inBounds {g g1 : Grid} {x y : Nat} {v : String}
    (h : setCell g x y v = some g1) : InBounds g (x, y) := by
  unfold setCell at h
  cases hrow : g[x]? with
  | none =>
    rw [hrow] at h
    exact absurd h (by simp)
  | some row =>
    rw [hrow] at h
    have hx : x < g.length := by
      by_contra hcon
      rw [List.getElem?_eq_none (Nat.le_of_not_lt hcon)] at hrow
      exact absurd hrow (by simp)
    have hy : y < row.length := by
      by_contra hcon
      simp [hcon] at h
    refine ⟨hx, ?_⟩
    show y < (g.getD x []).length
    rw [List.getD_eq_getElem?_getD, hrow]
    exact hy

/-- C20. `updateGrid` never indexes outside the grid. In the embedding a write outside the
grid makes the step fail, so: (1) a compaction step that moves a symbol and succeeds wrote
at a row `x + emptySpaces` below `R`; (2) a refill step that succeeds wrote at a row `x`
below `R`; (3) on every rectangular grid with at least one row and one column and every
two in-bounds coordinates (equal or distinct) the whole run succeeds, so every write it
makes is of kind (1) or (2) or one of the two clearing writes, and the result has the
dimensions of the input. -/
theorem C20_updateGrid_stays_in_grid (g : Grid) (C : Nat) (a b : Coord)
    (rnd : RandomSource) (draws : Nat) (_hrows : 0 < g.length) (_hcols : 0 < C)
    (hrect : Rect g C) (ha : InBounds g a) (hb : InBounds g b) :
    (∀ (y x : Nat) (st st1 : Grid × Nat) (c : String),
      readCell st.1 x y = some (some c) → c ≠ "" → 0 < st.2 →
      compactStep y x st = some st1 → x + st.2 ≤ st.1.length - 1 ∧ x + st.2 < st.1.length) ∧
    (∀ (y k x : Nat) (st st1 : Grid × Nat),
      refillLoop rnd y (k + 1) x st = some st1 → x < st.1.length) ∧
    ∃ g1 draws1, updatedGrid g a b rnd draws = some (g1, draws1) ∧
      g1.length = g.length ∧ Rect g1 C := by
  refine ⟨?_, ?_, ?_⟩
  · intro y x st st1 c hread hc he hstep
    unfold compactStep at hstep
    rw [hread] at hstep
    simp only [hc, if_false, he, if_true] at hstep
    cases hw : setCell st.1 (x + st.2) y c with
    | none =>
      rw [hw] at hstep
      exact absurd hstep (by simp)
    | some g1 =>
      have h := (setCell_some_inBounds hw).1
      exact ⟨by omega, h⟩
  · intro y k x st st1 hstep
    unfold refillLoop at hstep
    cases hw : setCell st.1 x y (generateTileSymbol rnd st.2) with
    | none =>
      rw [hw] at hstep
      exact absurd hstep (by simp)
    | some g1 => exact (setCell_some_inBounds hw).1
  · obtain ⟨_, g1, _, _, _, h1, h2, h3, _⟩ := updatedGrid_spec rnd g a b draws hrect ha hb
    exact ⟨g1, _, h1, h2, h3⟩

theorem C20_updateGrid_stays_in_grid_witness :
    0 < holedGrid.length ∧ 0 < 2 ∧ Rect holedGrid 2 ∧
    InBounds holedGrid (1, 1) ∧ InBounds holedGrid (1, 1) ∧
    ∃ g1 draws1, updatedGrid holedGrid (1, 1) (1, 1) cycleRnd 0 = some (g1, draws1) ∧
      g1.length = holedGrid.length ∧ Rect g1 2 :=
  ⟨by decide, by decide, by decide, by decide, by decide,
    (C20_updateGrid_stays_in_grid holedGrid 2 (1, 1) (1, 1) cycleRnd 0 (by decide)
      (by decide) (by decide) (by decide) (by decide)).2.2⟩

/-! ## Restart and overlapping matches (C12, C13) -/

set_option maxRecDepth 1000000 in
/-- C12, the code at the failing input. A matching pair is confirmed with one second left and
the last second passes (game over, animation still pending). After `restartGame`
animationTiles still holds the pair and the timeout is still live; when it fires, score goes
from 0 to 5, timer from 60 to 61, and the grid becomes the collapse of the grid of before the
restart, not the freshly generated one. -/
theorem C12_restart_keeps_pending_animation :
    (runEvents cycleRnd lastSecondTrace (initialSession cycleRnd 0)).map
        (fun w => (w.state.isGameOver, w.state.animationTiles, w.timeout.isSome))
      = some (true, [(0, 0), (1, 0)], true) ∧
    (runEvents cycleRnd (lastSecondTrace ++ [Event.restart 55])
        (initialSession cycleRnd 0)).map
        (fun w => (w.state.animationTiles, w.timeout.isSome, w.state.currentScore,
          w.state.timer))
      = some ([(0, 0), (1, 0)], true, 0, 60) ∧
    (runEvents cycleRnd (lastSecondTrace ++ [Event.restart 55])
        (initialSession cycleRnd 0)).map (fun w => w.state.grid)
      = some (createTileGrid cycleRnd 9 6 55).1 ∧
    (runEvents cycleRnd (lastSecondTrace ++ [Event.restart 55, Event.animate 109])
        (initialSession cycleRnd 0)).map
        (fun w => (w.state.animationTiles, w.state.currentScore, w.state.timer))
      = some ([], 5, 61) ∧
    (runEvents cycleRnd (lastSecondTrace ++ [Event.restart 55, Event.animate 109])
        (initialSession cycleRnd 0)).map (fun w => w.state.grid)
      = (updatedGrid (createTileGrid cycleRnd 9 6 0).1 (0, 0) (1, 0) cycleRnd 109).map
          Prod.fst ∧
    (runEvents cycleRnd (lastSecondTrace ++ [Event.restart 55, Event.animate 109])
        (initialSession cycleRnd 0)).map (fun w => w.state.grid)
      ≠ some (createTileGrid cycleRnd 9 6 55).1 := by
  refine ⟨by decide, by decide, by decide, by decide, by decide, by decide⟩

set_option maxRecDepth 1000000 in
/-- C13, counterexample. With the pair (0,0), (1,0) pending and (0,1) selected, selecting
(1,1) completes a second valid match: animationTiles and the timeout now hold the pair (0,1),
(1,1) and the first pair is gone. When the timeout fires one match is applied (score 5),
column 0 is as it was, and no timeout is left to apply the first match. -/
theorem C13_counterexample :
    (runEvents cycleRnd overlapTrace (initialSession cycleRnd 0)).map
        (fun w => (w.state.isGameOver, w.state.animationTiles, w.state.selectedTiles,
          pairMatches w.state.grid (0, 1) (1, 1)))
      = some (false, [(0, 0), (1, 0)], [(0, 1)], some true) ∧
    (runEvents cycleRnd (overlapTrace ++ [Event.select 1 1])
        (initialSession cycleRnd 0)).map
        (fun w => (w.state.animationTiles, w.state.selectedTiles,
          w.timeout.map fun r => r.animationTiles))
      = some ([(0, 1), (1, 1)], [], some [(0, 1), (1, 1)]) ∧
    (runEvents cycleRnd (overlapTrace ++ [Event.select 1 1, Event.animate 54])
        (initialSession cycleRnd 0)).map
        (fun w => (w.state.currentScore, w.state.animationTiles, w.timeout.isSome,
          column w.state.grid 0))
      = some (5, [], false, column (createTileGrid cycleRnd 9 6 0).1 0) ∧
    (runEvents cycleRnd
        (overlapTrace ++ [Event.select 1 1, Event.animate 54, Event.animate 56])
        (initialSession cycleRnd 0)).isNone = true := by
  refine ⟨by decide, by decide, by decide, by decide⟩

set_option maxRecDepth 1000000 in
theorem overlapSession_reached :
    runEvents cycleRnd overlapTrace (initialSession cycleRnd 0) = some overlapSession := by
  rfl

/-- C13, amended. For every session that is not over, whose animationTiles is non-empty and
which holds one selected coordinate `a`, a `handleTileSelection` call that completes a valid
matching pair empties the selection buffer and replaces the pending animationTiles pair by
the new pair; the timeout is re-installed for the new pair, so the earlier pair is no longer
scheduled. Grid, score and timer are untouched by the call. -/
theorem C13_new_match_replaces_pending (rnd : RandomSource) (w : Session) (a : Coord)
    (x y : Nat) (_hpending : w.state.animationTiles ≠ [])
    (hrun : w.state.isGameOver = false) (hsel : w.state.selectedTiles = [a])
    (hin : InBounds w.state.grid (x, y))
    (hadj : checkAdjacency w.state.grid a (x, y) = some true)
    (hsym : ∃ c, c ≠ "" ∧ readCell w.state.grid a.1 a.2 = some (some c) ∧
      readCell w.state.grid x y = some (some c)) :
    ∃ w1, step rnd (Event.select x y) w = some w1 ∧
      w1.state.selectedTiles = [] ∧ w1.state.animationTiles = [a, (x, y)] ∧
      w1.timeout = some w1.state ∧
      w1.state.grid = w.state.grid ∧ w1.state.currentScore = w.state.currentScore ∧
      w1.state.timer = w.state.timer := by
  obtain ⟨c, _, hca, hcb⟩ := hsym
  have hpm : pairMatches w.state.grid a (x, y) = some true := by
    simp [pairMatches, hadj, hca, hcb]
  have hh : handleTileSelection w.state x y
      = some { w.state with animationTiles := [a, (x, y)], selectedTiles := [] } := by
    simp [handleTileSelection, hrun, hsel, hpm]
  have hs : schedulesAnimation w.state x y = true := by
    simp [schedulesAnimation, hrun, hsel, hpm]
  refine ⟨{ state := { w.state with animationTiles := [a, (x, y)], selectedTiles := [] },
            timeout := some { w.state with animationTiles := [a, (x, y)],
                                           selectedTiles := [] } },
    ?_, rfl, rfl, rfl, rfl, rfl, rfl⟩
  simp [step, hin, hh, hs]

theorem C13_new_match_replaces_pending_witness :
    overlapSession.state.animationTiles ≠ [] ∧ overlapSession.state.isGameOver = false ∧
    overlapSession.state.selectedTiles = [(0, 1)] ∧
    InBounds overlapSession.state.grid (1, 1) ∧
    checkAdjacency overlapSession.state.grid (0, 1) (1, 1) = some true ∧
    (∃ c, c ≠ "" ∧ readCell overlapSession.state.grid 0 1 = some (some c) ∧
      readCell overlapSession.state.grid 1 1 = some (some c)) ∧
    ∃ w1, step cycleRnd (Event.select 1 1) overlapSession = some w1 ∧
      w1.state.selectedTiles = [] ∧ w1.state.animationTiles = [(0, 1), (1, 1)] ∧
      w1.timeout = some w1.state ∧
      w1.state.grid = overlapSession.state.grid ∧
      w1.state.currentScore = overlapSession.state.currentScore ∧
      w1.state.timer = overlapSession.state.timer :=
  ⟨by decide, rfl, rfl, by decide, by decide, ⟨"🥭", by decide, by decide, by decide⟩,
    C13_new_match_replaces_pending cycleRnd overlapSession (0, 1) 1 1 (by decide) rfl rfl
      (by decide) (by decide) ⟨"🥭", by decide, by decide, by decide⟩⟩

end TileConnect
